import Mathlib

/-!
Verification of the room-designer rendering/picking core
(`src/app/src/utils/Raycaster.ts`, `RoomScene.ts`, `FurnitureFactory.ts`,
and the texture loader) against its natural-language specification.

The TypeScript is shallowly embedded: JS numbers are modelled as exact
rationals, except where the code can produce infinities or NaN by dividing
by zero (the slab-method ray/AABB test); there an explicit extended-number
type `JSNum` mirrors IEEE semantics for the operations the code performs.
Mutable class state becomes explicit state passing; `null` becomes `Option`.
-/

namespace RoomDesigner

/-- Components of a gl-matrix `vec3`, as exact rationals. -/
structure Vec3 where
  x : ℚ
  y : ℚ
  z : ℚ
deriving DecidableEq, Repr

/-- Components of a `vec4` (used for the light-space fragment position). -/
structure Vec4 where
  x : ℚ
  y : ℚ
  z : ℚ
  w : ℚ
deriving DecidableEq, Repr

/-- Componentwise product, as in `vec3.multiply`. -/
def vmul (a b : Vec3) : Vec3 := ⟨a.x * b.x, a.y * b.y, a.z * b.z⟩

/-- Componentwise sum, as in `vec3.add`. -/
def vadd (a b : Vec3) : Vec3 := ⟨a.x + b.x, a.y + b.y, a.z + b.z⟩

/-- An extended JS number as produced inside `Raycaster.intersectAABB`:
a finite value, `±Infinity` from dividing a nonzero value by zero, or
`NaN` from `0/0`. -/
inductive JSNum where
  | nan
  | neginf
  | fin (q : ℚ)
  | posinf
deriving DecidableEq, Repr

/-- JS `<` on extended numbers: every comparison involving NaN is false. -/
def jlt : JSNum → JSNum → Bool
  | .fin a, .fin b => decide (a < b)
  | .neginf, .fin _ => true
  | .neginf, .posinf => true
  | .fin _, .posinf => true
  | _, _ => false

/-- JS `>`. -/
def jgt (a b : JSNum) : Bool := jlt b a

/-- JS division of two finite numbers: `q/0` is `+Infinity` for `q > 0`,
`-Infinity` for `q < 0`, and NaN for `0/0`; otherwise exact. -/
def jdiv (a b : ℚ) : JSNum :=
  if b = 0 then
    if 0 < a then .posinf else if a < 0 then .neginf else .nan
  else .fin (a / b)

/-- Mirrors the conditional swap `if (tmin > tmax) [tmin, tmax] = [tmax, tmin]`. -/
def sortPair (a b : JSNum) : JSNum × JSNum :=
  if jgt a b then (b, a) else (a, b)

/-- A picking ray (origin plus direction), as held by `Raycaster`. -/
structure Ray where
  origin : Vec3
  dir : Vec3
deriving DecidableEq, Repr

/-- `Raycaster.intersectAABB`: slab-method ray/AABB intersection under JS
number semantics.  Returns the entry distance if it is positive, else the
exit distance if that is positive, else `none`. -/
def intersectAABB (r : Ray) (mn mx : Vec3) : Option JSNum :=
  let px := sortPair (jdiv (mn.x - r.origin.x) r.dir.x) (jdiv (mx.x - r.origin.x) r.dir.x)
  let tmin := px.1
  let tmax := px.2
  let py := sortPair (jdiv (mn.y - r.origin.y) r.dir.y) (jdiv (mx.y - r.origin.y) r.dir.y)
  let tymin := py.1
  let tymax := py.2
  if jgt tmin tymax || jgt tymin tmax then none
  else
    let tmin := if jgt tymin tmin then tymin else tmin
    let tmax := if jlt tymax tmax then tymax else tmax
    let pz := sortPair (jdiv (mn.z - r.origin.z) r.dir.z) (jdiv (mx.z - r.origin.z) r.dir.z)
    let tzmin := pz.1
    let tzmax := pz.2
    if jgt tmin tzmax || jgt tzmin tmax then none
    else
      let tmin := if jgt tzmin tmin then tzmin else tmin
      let tmax := if jlt tzmax tmax then tzmax else tmax
      if jgt tmin (.fin 0) then some tmin
      else if jgt tmax (.fin 0) then some tmax
      else none

/-- Per-axis slab entry value `min((lo-o)/d, (hi-o)/d)` (finite-direction case). -/
def tlo (o d lo hi : ℚ) : ℚ := min ((lo - o) / d) ((hi - o) / d)

/-- Per-axis slab exit value `max((lo-o)/d, (hi-o)/d)` (finite-direction case). -/
def thi (o d lo hi : ℚ) : ℚ := max ((lo - o) / d) ((hi - o) / d)

/-- The slab-method entry distance `tmin` for a ray with nonzero direction
components. -/
def entryDist (r : Ray) (mn mx : Vec3) : ℚ :=
  max (max (tlo r.origin.x r.dir.x mn.x mx.x) (tlo r.origin.y r.dir.y mn.y mx.y))
    (tlo r.origin.z r.dir.z mn.z mx.z)

/-- The slab-method exit distance `tmax` for a ray with nonzero direction
components. -/
def exitDist (r : Ray) (mn mx : Vec3) : ℚ :=
  min (min (thi r.origin.x r.dir.x mn.x mx.x) (thi r.origin.y r.dir.y mn.y mx.y))
    (thi r.origin.z r.dir.z mn.z mx.z)

theorem jdiv_of_ne (a : ℚ) {b : ℚ} (hb : b ≠ 0) : jdiv a b = .fin (a / b) := by
  simp [jdiv, hb]

theorem sortPair_fin (p q : ℚ) :
    sortPair (.fin p) (.fin q) = (.fin (min p q), .fin (max p q)) := by
  rcases le_or_lt p q with h | h
  · simp [sortPair, jgt, jlt, not_lt.2 h, min_eq_left h, max_eq_right h]
  · simp [sortPair, jgt, jlt, h, min_eq_right h.le, max_eq_left h.le]

theorem ite_lt_fin_max (a b : ℚ) :
    (if a < b then JSNum.fin b else .fin a) = .fin (max b a) := by
  rcases le_or_lt b a with h | h
  · simp [not_lt.2 h, max_eq_right h]
  · simp [h, max_eq_left h.le]

theorem ite_lt_fin_min (a b : ℚ) :
    (if a < b then JSNum.fin a else .fin b) = .fin (min a b) := by
  rcases le_or_lt a b with h | h
  · rcases eq_or_lt_of_le h with rfl | h'
    · simp [min_self]
    · simp [h', min_eq_left h]
  · simp [not_lt.2 h.le, min_eq_right h.le]

/-- With all three direction components nonzero the whole slab computation is
finite; `intersectAABB` reduces to a pure rational program. -/
theorem intersectAABB_of_ne (r : Ray) (mn mx : Vec3)
    (hx : r.dir.x ≠ 0) (hy : r.dir.y ≠ 0) (hz : r.dir.z ≠ 0) :
    intersectAABB r mn mx =
      (let a1 := tlo r.origin.x r.dir.x mn.x mx.x
       let b1 := thi r.origin.x r.dir.x mn.x mx.x
       let a2 := tlo r.origin.y r.dir.y mn.y mx.y
       let b2 := thi r.origin.y r.dir.y mn.y mx.y
       let a3 := tlo r.origin.z r.dir.z mn.z mx.z
       let b3 := thi r.origin.z r.dir.z mn.z mx.z
       if b2 < a1 ∨ b1 < a2 then none
       else if b3 < max a2 a1 ∨ min b2 b1 < a3 then none
       else if 0 < max a3 (max a2 a1) then some (.fin (max a3 (max a2 a1)))
       else if 0 < min b3 (min b2 b1) then some (.fin (min b3 (min b2 b1)))
       else none) := by
  simp only [intersectAABB, jdiv_of_ne _ hx, jdiv_of_ne _ hy, jdiv_of_ne _ hz,
    sortPair_fin]
  simp only [jgt, jlt, Bool.or_eq_true, decide_eq_true_eq, ite_lt_fin_max,
    ite_lt_fin_min, tlo, thi]

theorem tlo_le_thi (o d lo hi : ℚ) : tlo o d lo hi ≤ thi o d lo hi := min_le_max

/-- C3: for rays with nonzero direction components, the slab test returns
the entry distance when the slab intervals overlap and the entry is positive,
the exit distance when the ray starts inside (entry ≤ 0 < exit), and `none`
when the interval is empty or the whole box is behind the origin. -/
theorem intersectAABB_slab_correct (r : Ray) (mn mx : Vec3)
    (hx : r.dir.x ≠ 0) (hy : r.dir.y ≠ 0) (hz : r.dir.z ≠ 0) :
    (entryDist r mn mx ≤ exitDist r mn mx ∧ 0 < entryDist r mn mx →
      intersectAABB r mn mx = some (.fin (entryDist r mn mx))) ∧
    (entryDist r mn mx ≤ 0 ∧ 0 < exitDist r mn mx →
      intersectAABB r mn mx = some (.fin (exitDist r mn mx))) ∧
    (exitDist r mn mx < entryDist r mn mx ∨ exitDist r mn mx ≤ 0 →
      intersectAABB r mn mx = none) := by
  rw [intersectAABB_of_ne r mn mx hx hy hz]
  set a1 := tlo r.origin.x r.dir.x mn.x mx.x with ha1
  set b1 := thi r.origin.x r.dir.x mn.x mx.x with hb1
  set a2 := tlo r.origin.y r.dir.y mn.y mx.y with ha2
  set b2 := thi r.origin.y r.dir.y mn.y mx.y with hb2
  set a3 := tlo r.origin.z r.dir.z mn.z mx.z with ha3
  set b3 := thi r.origin.z r.dir.z mn.z mx.z with hb3
  have hE : entryDist r mn mx = max a3 (max a2 a1) := by
    rw [entryDist, ← ha1, ← ha2, ← ha3, max_comm a1 a2, max_comm _ a3]
  have hX : exitDist r mn mx = min b3 (min b2 b1) := by
    rw [exitDist, ← hb1, ← hb2, ← hb3, min_comm b1 b2, min_comm _ b3]
  simp only [hE, hX]
  have sa1 : a1 ≤ max a3 (max a2 a1) := le_max_of_le_right (le_max_right _ _)
  have sa2 : a2 ≤ max a3 (max a2 a1) := le_max_of_le_right (le_max_left _ _)
  have sa3 : a3 ≤ max a3 (max a2 a1) := le_max_left _ _
  have sb1 : min b3 (min b2 b1) ≤ b1 := min_le_of_right_le (min_le_right _ _)
  have sb2 : min b3 (min b2 b1) ≤ b2 := min_le_of_right_le (min_le_left _ _)
  have sb3 : min b3 (min b2 b1) ≤ b3 := min_le_left _ _
  refine ⟨?_, ?_, ?_⟩
  · rintro ⟨hle, hpos⟩
    rw [if_neg, if_neg, if_pos hpos]
    · push_neg
      exact ⟨(max_le sa2 sa1).trans (hle.trans sb3),
        le_min (sa3.trans (hle.trans sb2)) (sa3.trans (hle.trans sb1))⟩
    · push_neg
      exact ⟨sa1.trans (hle.trans sb2), sa2.trans (hle.trans sb1)⟩
  · rintro ⟨hle0, hposX⟩
    have hle : max a3 (max a2 a1) ≤ min b3 (min b2 b1) := hle0.trans hposX.le
    rw [if_neg, if_neg, if_neg (not_lt.2 hle0), if_pos hposX]
    · push_neg
      exact ⟨(max_le sa2 sa1).trans (hle.trans sb3),
        le_min (sa3.trans (hle.trans sb2)) (sa3.trans (hle.trans sb1))⟩
    · push_neg
      exact ⟨sa1.trans (hle.trans sb2), sa2.trans (hle.trans sb1)⟩
  · intro h
    by_cases c1 : b2 < a1 ∨ b1 < a2
    · rw [if_pos c1]
    by_cases c2 : b3 < max a2 a1 ∨ min b2 b1 < a3
    · rw [if_neg c1, if_pos c2]
    push_neg at c1 c2
    have h12 : a1 ≤ b2 := c1.1
    have h21 : a2 ≤ b1 := c1.2
    have h13 : a1 ≤ b3 := (le_max_right a2 a1).trans c2.1
    have h23 : a2 ≤ b3 := (le_max_left a2 a1).trans c2.1
    have h31 : a3 ≤ b1 := c2.2.trans (min_le_right _ _)
    have h32 : a3 ≤ b2 := c2.2.trans (min_le_left _ _)
    have h11 : a1 ≤ b1 := ha1 ▸ hb1 ▸ tlo_le_thi _ _ _ _
    have h22 : a2 ≤ b2 := ha2 ▸ hb2 ▸ tlo_le_thi _ _ _ _
    have h33 : a3 ≤ b3 := ha3 ▸ hb3 ▸ tlo_le_thi _ _ _ _
    have hle : max a3 (max a2 a1) ≤ min b3 (min b2 b1) :=
      max_le (le_min h33 (le_min h32 h31))
        (max_le (le_min h23 (le_min h22 h21)) (le_min h13 (le_min h12 h11)))
    rcases h with h | h
    · exact absurd hle (not_le.2 h)
    · have hE0 : max a3 (max a2 a1) ≤ 0 := hle.trans h
      rw [if_neg (by push_neg; exact c1), if_neg (by push_neg; exact c2),
        if_neg (not_lt.2 hE0), if_neg (not_lt.2 h)]

/-- Witness for C3: a concrete ray entering the unit box at distance 2. -/
theorem intersectAABB_slab_correct_witness :
    intersectAABB ⟨⟨-5, -1/2, 0⟩, ⟨2, 1/10, 1/10⟩⟩ ⟨-1, -1, -1⟩ ⟨1, 1, 1⟩ =
      some (.fin (entryDist ⟨⟨-5, -1/2, 0⟩, ⟨2, 1/10, 1/10⟩⟩ ⟨-1, -1, -1⟩ ⟨1, 1, 1⟩)) :=
  (intersectAABB_slab_correct ⟨⟨-5, -1/2, 0⟩, ⟨2, 1/10, 1/10⟩⟩ ⟨-1, -1, -1⟩ ⟨1, 1, 1⟩
    (by norm_num) (by norm_num) (by norm_num)).1
    ⟨by norm_num [entryDist, exitDist, tlo, thi, min_def, max_def],
      by norm_num [entryDist, tlo, min_def, max_def]⟩

theorem jlt_posinf_left (a : JSNum) : jlt .posinf a = false := by cases a <;> rfl

theorem jlt_neginf_right (a : JSNum) : jlt a .neginf = false := by cases a <;> rfl

theorem jgt_posinf_snd (a : JSNum) : jgt a .posinf = false := jlt_posinf_left a

theorem jgt_neginf_fst (a : JSNum) : jgt .neginf a = false := jlt_neginf_right a

theorem sortPair_neginf_posinf : sortPair .neginf .posinf = (.neginf, .posinf) := rfl

/-- Modelled from the claim's words ("the intersection degenerates to no
constraint on that axis"): the slab computation whose running interval starts
at `(-∞, +∞)` and to which only the y and z slabs are applied.  Textually it
is `intersectAABB` with its x phase replaced by the unconstrained interval. -/
def slabNoX (r : Ray) (mn mx : Vec3) : Option JSNum :=
  let tmin := JSNum.neginf
  let tmax := JSNum.posinf
  let py := sortPair (jdiv (mn.y - r.origin.y) r.dir.y) (jdiv (mx.y - r.origin.y) r.dir.y)
  let tymin := py.1
  let tymax := py.2
  if jgt tmin tymax || jgt tymin tmax then none
  else
    let tmin := if jgt tymin tmin then tymin else tmin
    let tmax := if jlt tymax tmax then tymax else tmax
    let pz := sortPair (jdiv (mn.z - r.origin.z) r.dir.z) (jdiv (mx.z - r.origin.z) r.dir.z)
    let tzmin := pz.1
    let tzmax := pz.2
    if jgt tmin tzmax || jgt tzmin tmax then none
    else
      let tmin := if jgt tzmin tmin then tzmin else tmin
      let tmax := if jlt tzmax tmax then tzmax else tmax
      if jgt tmin (.fin 0) then some tmin
      else if jgt tmax (.fin 0) then some tmax
      else none

/-- Modelled from the claim's words: the slab computation with no constraint
from the y axis (only the x and z slabs are applied). -/
def slabNoY (r : Ray) (mn mx : Vec3) : Option JSNum :=
  let px := sortPair (jdiv (mn.x - r.origin.x) r.dir.x) (jdiv (mx.x - r.origin.x) r.dir.x)
  let tmin := px.1
  let tmax := px.2
  let pz := sortPair (jdiv (mn.z - r.origin.z) r.dir.z) (jdiv (mx.z - r.origin.z) r.dir.z)
  let tzmin := pz.1
  let tzmax := pz.2
  if jgt tmin tzmax || jgt tzmin tmax then none
  else
    let tmin := if jgt tzmin tmin then tzmin else tmin
    let tmax := if jlt tzmax tmax then tzmax else tmax
    if jgt tmin (.fin 0) then some tmin
    else if jgt tmax (.fin 0) then some tmax
    else none

/-- Modelled from the claim's words: the slab computation with no constraint
from the z axis (only the x and y slabs are applied). -/
def slabNoZ (r : Ray) (mn mx : Vec3) : Option JSNum :=
  let px := sortPair (jdiv (mn.x - r.origin.x) r.dir.x) (jdiv (mx.x - r.origin.x) r.dir.x)
  let tmin := px.1
  let tmax := px.2
  let py := sortPair (jdiv (mn.y - r.origin.y) r.dir.y) (jdiv (mx.y - r.origin.y) r.dir.y)
  let tymin := py.1
  let tymax := py.2
  if jgt tmin tymax || jgt tymin tmax then none
  else
    let tmin := if jgt tymin tmin then tymin else tmin
    let tmax := if jlt tymax tmax then tymax else tmax
    if jgt tmin (.fin 0) then some tmin
    else if jgt tmax (.fin 0) then some tmax
    else none

/-- C4: a zero direction component never raises a division error — the two
divisions on that axis evaluate to `-Infinity` and `+Infinity` (ray origin
strictly inside the slab), the axis imposes no constraint, and the test still
returns an ordinary distance-or-`none` result, namely that of the remaining
two axes. -/
theorem intersectAABB_zero_dir_degenerates (r : Ray) (mn mx : Vec3) :
    (r.dir.x = 0 → mn.x < r.origin.x → r.origin.x < mx.x →
      intersectAABB r mn mx = slabNoX r mn mx) ∧
    (r.dir.y = 0 → mn.y < r.origin.y → r.origin.y < mx.y →
      intersectAABB r mn mx = slabNoY r mn mx) ∧
    (r.dir.z = 0 → mn.z < r.origin.z → r.origin.z < mx.z →
      intersectAABB r mn mx = slabNoZ r mn mx) := by
  refine ⟨?_, ?_, ?_⟩
  · intro h0 h1 h2
    have d1 : jdiv (mn.x - r.origin.x) r.dir.x = .neginf := by
      simp [jdiv, h0, not_lt.2 (by linarith : mn.x - r.origin.x ≤ 0),
        (by linarith : mn.x - r.origin.x < 0)]
    have d2 : jdiv (mx.x - r.origin.x) r.dir.x = .posinf := by
      simp [jdiv, h0, (by linarith : 0 < mx.x - r.origin.x)]
    simp only [intersectAABB, slabNoX, d1, d2, sortPair_neginf_posinf]
  · intro h0 h1 h2
    have d1 : jdiv (mn.y - r.origin.y) r.dir.y = .neginf := by
      simp [jdiv, h0, not_lt.2 (by linarith : mn.y - r.origin.y ≤ 0),
        (by linarith : mn.y - r.origin.y < 0)]
    have d2 : jdiv (mx.y - r.origin.y) r.dir.y = .posinf := by
      simp [jdiv, h0, (by linarith : 0 < mx.y - r.origin.y)]
    simp only [intersectAABB, slabNoY, d1, d2, sortPair_neginf_posinf,
      jgt_neginf_fst, jgt_posinf_snd, jlt_posinf_left, Bool.or_self,
      Bool.false_eq_true, if_false]
  · intro h0 h1 h2
    have d1 : jdiv (mn.z - r.origin.z) r.dir.z = .neginf := by
      simp [jdiv, h0, not_lt.2 (by linarith : mn.z - r.origin.z ≤ 0),
        (by linarith : mn.z - r.origin.z < 0)]
    have d2 : jdiv (mx.z - r.origin.z) r.dir.z = .posinf := by
      simp [jdiv, h0, (by linarith : 0 < mx.z - r.origin.z)]
    simp only [intersectAABB, slabNoZ, d1, d2, sortPair_neginf_posinf,
      jgt_neginf_fst, jgt_posinf_snd, jlt_posinf_left, Bool.or_self,
      Bool.false_eq_true, if_false]

/-- Witness for C4: a ray travelling straight down (zero x and z direction
components) over the floor box still yields a plain hit distance. -/
theorem intersectAABB_zero_dir_witness :
    intersectAABB ⟨⟨0, 2, 0⟩, ⟨0, -1, 0⟩⟩ ⟨-10, -1/10, -10⟩ ⟨10, 0, 10⟩ =
      slabNoX ⟨⟨0, 2, 0⟩, ⟨0, -1, 0⟩⟩ ⟨-10, -1/10, -10⟩ ⟨10, 0, 10⟩ :=
  (intersectAABB_zero_dir_degenerates ⟨⟨0, 2, 0⟩, ⟨0, -1, 0⟩⟩ ⟨-10, -1/10, -10⟩
    ⟨10, 0, 10⟩).1 (by norm_num) (by norm_num) (by norm_num)

/-! ### Furniture factory (`FurnitureFactory.ts`) -/

/-- Decimal rendering of a natural number, as JS string interpolation
`${n}` produces for integer counters. -/
def natStr (n : ℕ) : String :=
  if n = 0 then "0" else ⟨((Nat.digits 10 n).map Nat.digitChar).reverse⟩

/-- The closed set of furniture type tags. -/
inductive FurnitureType where
  | table
  | chair
  | bookshelf
  | sofa
  | lamp
deriving DecidableEq, Repr

/-- A `FurniturePart`: GPU VAO handle (modelled as a number), vertex count,
local transform and flat color. -/
structure FurniturePart where
  vao : ℕ
  vertexCount : ℕ
  position : Vec3
  rotation : Vec3
  scale : Vec3
  color : Vec3
deriving DecidableEq, Repr

/-- A local-space axis-aligned bounding box. -/
structure Box3 where
  min : Vec3
  max : Vec3
deriving DecidableEq, Repr

/-- A `FurnitureObject`: id, type tag, parts, world transform (position,
single y-axis rotation angle, scale), selection flag and local bounding box. -/
structure FurnitureObject where
  id : String
  ftype : FurnitureType
  parts : List FurniturePart
  position : Vec3
  rotation : ℚ
  scale : Vec3
  selected : Bool
  boundingBox : Box3
deriving DecidableEq, Repr

/-- One interleaved vertex of `createBox`'s `Float32Array`
(position, normal, texture coordinate). -/
structure Vertex where
  pos : Vec3
  normal : Vec3
  u : ℚ
  v : ℚ
deriving DecidableEq, Repr

/-- `GeometryData`: vertex and index buffers. -/
structure GeometryData where
  vertices : List Vertex
  indices : List ℕ
deriving DecidableEq, Repr

/-- `FurnitureFactory.createBox(width, height, depth)`: 6 faces of 4 vertices
each with per-face normals, and 12 triangles. -/
def createBox (width height depth : ℚ) : GeometryData :=
  let w := width / 2
  let h := height / 2
  let d := depth / 2
  { vertices := [
      -- Front face
      ⟨⟨-w, -h, d⟩, ⟨0, 0, 1⟩, 0, 0⟩, ⟨⟨w, -h, d⟩, ⟨0, 0, 1⟩, 1, 0⟩,
      ⟨⟨w, h, d⟩, ⟨0, 0, 1⟩, 1, 1⟩, ⟨⟨-w, h, d⟩, ⟨0, 0, 1⟩, 0, 1⟩,
      -- Back face
      ⟨⟨-w, -h, -d⟩, ⟨0, 0, -1⟩, 1, 0⟩, ⟨⟨-w, h, -d⟩, ⟨0, 0, -1⟩, 1, 1⟩,
      ⟨⟨w, h, -d⟩, ⟨0, 0, -1⟩, 0, 1⟩, ⟨⟨w, -h, -d⟩, ⟨0, 0, -1⟩, 0, 0⟩,
      -- Top face
      ⟨⟨-w, h, -d⟩, ⟨0, 1, 0⟩, 0, 1⟩, ⟨⟨-w, h, d⟩, ⟨0, 1, 0⟩, 0, 0⟩,
      ⟨⟨w, h, d⟩, ⟨0, 1, 0⟩, 1, 0⟩, ⟨⟨w, h, -d⟩, ⟨0, 1, 0⟩, 1, 1⟩,
      -- Bottom face
      ⟨⟨-w, -h, -d⟩, ⟨0, -1, 0⟩, 0, 0⟩, ⟨⟨w, -h, -d⟩, ⟨0, -1, 0⟩, 1, 0⟩,
      ⟨⟨w, -h, d⟩, ⟨0, -1, 0⟩, 1, 1⟩, ⟨⟨-w, -h, d⟩, ⟨0, -1, 0⟩, 0, 1⟩,
      -- Right face
      ⟨⟨w, -h, -d⟩, ⟨1, 0, 0⟩, 1, 0⟩, ⟨⟨w, h, -d⟩, ⟨1, 0, 0⟩, 1, 1⟩,
      ⟨⟨w, h, d⟩, ⟨1, 0, 0⟩, 0, 1⟩, ⟨⟨w, -h, d⟩, ⟨1, 0, 0⟩, 0, 0⟩,
      -- Left face
      ⟨⟨-w, -h, -d⟩, ⟨-1, 0, 0⟩, 0, 0⟩, ⟨⟨-w, -h, d⟩, ⟨-1, 0, 0⟩, 1, 0⟩,
      ⟨⟨-w, h, d⟩, ⟨-1, 0, 0⟩, 1, 1⟩, ⟨⟨-w, h, -d⟩, ⟨-1, 0, 0⟩, 0, 1⟩],
    indices := [
      0, 1, 2, 0, 2, 3, 4, 5, 6, 4, 6, 7, 8, 9, 10, 8, 10, 11,
      12, 13, 14, 12, 14, 15, 16, 17, 18, 16, 18, 19, 20, 21, 22, 20, 22, 23] }

/-- Mutable factory state: the monotone id counter, plus a fresh-handle
counter standing in for the GL context's VAO allocation. -/
structure FactoryState where
  nextId : ℕ
  nextVao : ℕ
deriving DecidableEq, Repr

/-- The id produced for counter value `k`. -/
def genId (k : ℕ) : String := "furniture_" ++ natStr k

/-- `FurnitureFactory.generateId`: returns `furniture_${nextId++}`. -/
def generateId (fs : FactoryState) : String × FactoryState :=
  (genId fs.nextId, ⟨fs.nextId + 1, fs.nextVao⟩)

/-- `FurnitureFactory.createVAO`: allocates a vertex array object for the
geometry.  `gl.createVertexArray` is modelled as always succeeding with a
fresh handle (GL allocation failure is outside the verified claims). -/
def createVAO (fs : FactoryState) (_g : GeometryData) : ℕ × FactoryState :=
  (fs.nextVao, ⟨fs.nextId, fs.nextVao + 1⟩)

/-- `FurnitureFactory.createTable`. -/
def createTable (fs0 : FactoryState) : FurnitureObject × FactoryState :=
  let topGeom := createBox (3/2) (1/10) 1
  let p1 := createVAO fs0 topGeom
  let legGeom := createBox (8/100) (7/10) (8/100)
  let p2 := createVAO p1.2 legGeom
  let parts : List FurniturePart :=
    ⟨p1.1, topGeom.indices.length, ⟨0, 3/4, 0⟩, ⟨0, 0, 0⟩, ⟨1, 1, 1⟩, ⟨6/10, 4/10, 2/10⟩⟩ ::
    [⟨-65/100, 35/100, -4/10⟩, ⟨65/100, 35/100, -4/10⟩,
     ⟨-65/100, 35/100, (4:ℚ)/10⟩, ⟨65/100, 35/100, 4/10⟩].map
      (fun pos => ⟨p2.1, legGeom.indices.length, pos, ⟨0, 0, 0⟩, ⟨1, 1, 1⟩,
        ⟨5/10, 35/100, 18/100⟩⟩)
  let p3 := generateId p2.2
  ({ id := p3.1, ftype := .table, parts, position := ⟨0, 0, 0⟩, rotation := 0,
     scale := ⟨1, 1, 1⟩, selected := false,
     boundingBox := ⟨⟨-3/4, 0, -1/2⟩, ⟨3/4, 8/10, 1/2⟩⟩ }, p3.2)

/-- `FurnitureFactory.createChair`. -/
def createChair (fs0 : FactoryState) : FurnitureObject × FactoryState :=
  let seatGeom := createBox (1/2) (8/100) (1/2)
  let p1 := createVAO fs0 seatGeom
  let backGeom := createBox (1/2) (6/10) (8/100)
  let p2 := createVAO p1.2 backGeom
  let legGeom := createBox (6/100) (1/2) (6/100)
  let p3 := createVAO p2.2 legGeom
  let parts : List FurniturePart :=
    ⟨p1.1, seatGeom.indices.length, ⟨0, 1/2, 0⟩, ⟨0, 0, 0⟩, ⟨1, 1, 1⟩, ⟨6/10, 4/10, 2/10⟩⟩ ::
    ⟨p2.1, backGeom.indices.length, ⟨0, 84/100, -21/100⟩, ⟨0, 0, 0⟩, ⟨1, 1, 1⟩,
      ⟨6/10, 4/10, 2/10⟩⟩ ::
    [⟨-18/100, 1/4, -18/100⟩, ⟨18/100, 1/4, -18/100⟩,
     ⟨-18/100, 1/4, (18:ℚ)/100⟩, ⟨18/100, 1/4, 18/100⟩].map
      (fun pos => ⟨p3.1, legGeom.indices.length, pos, ⟨0, 0, 0⟩, ⟨1, 1, 1⟩,
        ⟨5/10, 35/100, 18/100⟩⟩)
  let p4 := generateId p3.2
  ({ id := p4.1, ftype := .chair, parts, position := ⟨0, 0, 0⟩, rotation := 0,
     scale := ⟨1, 1, 1⟩, selected := false,
     boundingBox := ⟨⟨-1/4, 0, -1/4⟩, ⟨1/4, 114/100, 1/4⟩⟩ }, p4.2)

/-- `FurnitureFactory.createBookshelf`. -/
def createBookshelf (fs0 : FactoryState) : FurnitureObject × FactoryState :=
  let sideGeom := createBox (8/100) (3/2) (4/10)
  let p1 := createVAO fs0 sideGeom
  let shelfGeom := createBox 1 (6/100) (4/10)
  let p2 := createVAO p1.2 shelfGeom
  let parts : List FurniturePart :=
    ⟨p1.1, sideGeom.indices.length, ⟨-46/100, 3/4, 0⟩, ⟨0, 0, 0⟩, ⟨1, 1, 1⟩,
      ⟨5/10, 35/100, 2/10⟩⟩ ::
    ⟨p1.1, sideGeom.indices.length, ⟨46/100, 3/4, 0⟩, ⟨0, 0, 0⟩, ⟨1, 1, 1⟩,
      ⟨5/10, 35/100, 2/10⟩⟩ ::
    (List.range 4).map
      (fun i => ⟨p2.1, shelfGeom.indices.length, ⟨0, i * (1/2 : ℚ), 0⟩, ⟨0, 0, 0⟩,
        ⟨1, 1, 1⟩, ⟨55/100, 4/10, 1/4⟩⟩)
  let p3 := generateId p2.2
  ({ id := p3.1, ftype := .bookshelf, parts, position := ⟨0, 0, 0⟩, rotation := 0,
     scale := ⟨1, 1, 1⟩, selected := false,
     boundingBox := ⟨⟨-1/2, 0, -2/10⟩, ⟨1/2, 3/2, 2/10⟩⟩ }, p3.2)

/-- `FurnitureFactory.createSofa`. -/
def createSofa (fs0 : FactoryState) : FurnitureObject × FactoryState :=
  let seatGeom := createBox 2 (4/10) (8/10)
  let p1 := createVAO fs0 seatGeom
  let backGeom := createBox 2 (6/10) (2/10)
  let p2 := createVAO p1.2 backGeom
  let armGeom := createBox (2/10) (1/2) (8/10)
  let p3 := createVAO p2.2 armGeom
  let baseGeom := createBox 2 (15/100) (8/10)
  let p4 := createVAO p3.2 baseGeom
  let parts : List FurniturePart :=
    [⟨p1.1, seatGeom.indices.length, ⟨0, 4/10, 0⟩, ⟨0, 0, 0⟩, ⟨1, 1, 1⟩,
       ⟨2/10, 3/10, 1/2⟩⟩,
     ⟨p2.1, backGeom.indices.length, ⟨0, 7/10, -3/10⟩, ⟨0, 0, 0⟩, ⟨1, 1, 1⟩,
       ⟨2/10, 3/10, 1/2⟩⟩,
     ⟨p3.1, armGeom.indices.length, ⟨-1, 45/100, 0⟩, ⟨0, 0, 0⟩, ⟨1, 1, 1⟩,
       ⟨18/100, 28/100, 48/100⟩⟩,
     ⟨p3.1, armGeom.indices.length, ⟨1, 45/100, 0⟩, ⟨0, 0, 0⟩, ⟨1, 1, 1⟩,
       ⟨18/100, 28/100, 48/100⟩⟩,
     ⟨p4.1, baseGeom.indices.length, ⟨0, 75/1000, 0⟩, ⟨0, 0, 0⟩, ⟨1, 1, 1⟩,
       ⟨15/100, 15/100, 15/100⟩⟩]
  let p5 := generateId p4.2
  ({ id := p5.1, ftype := .sofa, parts, position := ⟨0, 0, 0⟩, rotation := 0,
     scale := ⟨1, 1, 1⟩, selected := false,
     boundingBox := ⟨⟨-11/10, 0, -4/10⟩, ⟨11/10, 1, 4/10⟩⟩ }, p5.2)

/-- `FurnitureFactory.createLamp`. -/
def createLamp (fs0 : FactoryState) : FurnitureObject × FactoryState :=
  let baseGeom := createBox (2/10) (5/100) (2/10)
  let p1 := createVAO fs0 baseGeom
  let poleGeom := createBox (3/100) 1 (3/100)
  let p2 := createVAO p1.2 poleGeom
  let shadeGeom := createBox (3/10) (3/10) (3/10)
  let p3 := createVAO p2.2 shadeGeom
  let parts : List FurniturePart :=
    [⟨p1.1, baseGeom.indices.length, ⟨0, 25/1000, 0⟩, ⟨0, 0, 0⟩, ⟨1, 1, 1⟩,
       ⟨3/10, 3/10, 3/10⟩⟩,
     ⟨p2.1, poleGeom.indices.length, ⟨0, 55/100, 0⟩, ⟨0, 0, 0⟩, ⟨1, 1, 1⟩,
       ⟨4/10, 4/10, 4/10⟩⟩,
     ⟨p3.1, shadeGeom.indices.length, ⟨0, 12/10, 0⟩, ⟨0, 0, 0⟩, ⟨1, 8/10, 1⟩,
       ⟨9/10, 9/10, 7/10⟩⟩]
  let p4 := generateId p3.2
  ({ id := p4.1, ftype := .lamp, parts, position := ⟨0, 0, 0⟩, rotation := 0,
     scale := ⟨1, 1, 1⟩, selected := false,
     boundingBox := ⟨⟨-15/100, 0, -15/100⟩, ⟨15/100, 135/100, 15/100⟩⟩ }, p4.2)

/-- Dispatch of `RoomScene.addFurniture`'s `switch (type)`. -/
def createByType (fs : FactoryState) : FurnitureType → FurnitureObject × FactoryState
  | .table => createTable fs
  | .chair => createChair fs
  | .bookshelf => createBookshelf fs
  | .sofa => createSofa fs
  | .lamp => createLamp fs

/-! ### Picking (`Raycaster.intersectBox` / `intersectFurniture`)

`Math.cos`/`Math.sin` of the furniture's rotation angle are supplied through
an explicit `trig : ℚ → ℚ × ℚ` oracle (cosine, sine); every piece of
furniture in the scenes used below has rotation 0, where every admissible
oracle returns `(1, 0)`. -/

/-- One corner rotated about the y axis: `x' = x·cos − z·sin`,
`z' = x·sin + z·cos`. -/
def rotateCorner (c s : ℚ) (v : Vec3) : Vec3 :=
  ⟨v.x * c - v.z * s, v.y, v.x * s + v.z * c⟩

/-- `Raycaster.intersectBox`: scale the local bounding box, rotate its 8
corners about y, re-envelope them into a world AABB, translate by the world
position, then run the slab test.  (The JS accumulator starts at
`±Infinity`; over the nonempty corner list this equals folding `min`/`max`
from the first rotated corner.) -/
def intersectBox (trig : ℚ → ℚ × ℚ) (r : Ray) (f : FurnitureObject) : Option JSNum :=
  let mn := vmul f.boundingBox.min f.scale
  let mx := vmul f.boundingBox.max f.scale
  let c := (trig f.rotation).1
  let s := (trig f.rotation).2
  let corners : List Vec3 :=
    [⟨mn.x, mn.y, mn.z⟩, ⟨mx.x, mn.y, mn.z⟩, ⟨mn.x, mx.y, mn.z⟩, ⟨mx.x, mx.y, mn.z⟩,
     ⟨mn.x, mn.y, mx.z⟩, ⟨mx.x, mn.y, mx.z⟩, ⟨mn.x, mx.y, mx.z⟩, ⟨mx.x, mx.y, mx.z⟩]
  let rcs := corners.map (rotateCorner c s)
  let first := rotateCorner c s ⟨mn.x, mn.y, mn.z⟩
  let rmin := rcs.foldl (fun a v => ⟨min a.x v.x, min a.y v.y, min a.z v.z⟩) first
  let rmax := rcs.foldl (fun a v => ⟨max a.x v.x, max a.y v.y, max a.z v.z⟩) first
  intersectAABB r (vadd rmin f.position) (vadd rmax f.position)

/-- `Raycaster.intersectFurniture`: scan the collection keeping the item
whose hit distance is strictly smaller than the best so far (initially
`Infinity`); first hit wins ties. -/
def intersectFurniture (trig : ℚ → ℚ × ℚ) (r : Ray)
    (furniture : List FurnitureObject) : Option FurnitureObject :=
  (furniture.foldl
    (fun acc item =>
      match intersectBox trig r item with
      | some d => if jlt d acc.2 then (some item, d) else acc
      | none => acc)
    ((none : Option FurnitureObject), JSNum.posinf)).1

/-! ### Scene store (`RoomScene.ts`, WebGL2 variant) -/

/-- A selectable scene entry (`SceneObject`).  The object reference
`furnitureRef` is modelled by the referenced furniture's unique id; the GPU
texture field is omitted (it affects no verified claim). -/
structure SceneObject where
  id : String
  name : String
  sotype : String
  selected : Bool
  furnitureRef : Option String
  boundingBox : Option Box3
deriving DecidableEq, Repr

/-- The mutable `RoomScene` state the claims concern: factory counters, the
furniture collection, the selectable scene objects, and the current
selection (a copy of the selected scene object, standing for the reference
the source holds). -/
structure SceneState where
  factory : FactoryState
  furniture : List FurnitureObject
  sceneObjects : List SceneObject
  selectedObject : Option SceneObject
deriving DecidableEq, Repr

/-- `initializeSceneObjects`: the floor and walls entries present from
construction. -/
def initState : SceneState :=
  { factory := ⟨0, 0⟩
    furniture := []
    sceneObjects :=
      [{ id := "floor", name := "Floor", sotype := "floor", selected := false,
         furnitureRef := none,
         boundingBox := some ⟨⟨-10, -1/10, -10⟩, ⟨10, 0, 10⟩⟩ },
       { id := "walls", name := "Walls", sotype := "walls", selected := false,
         furnitureRef := none,
         boundingBox := some ⟨⟨-10, 0, -10⟩, ⟨10, 5, 10⟩⟩ }]
    selectedObject := none }

/-- `id.split('_')[1]`. -/
def idSuffix (s : String) : String := (s.splitOn "_").getD 1 ""

/-- `type.charAt(0).toUpperCase() + type.slice(1)`. -/
def typeName : FurnitureType → String
  | .table => "Table"
  | .chair => "Chair"
  | .bookshelf => "Bookshelf"
  | .sofa => "Sofa"
  | .lamp => "Lamp"

/-- `RoomScene.addFurniture`: create by type, drop the instance at floor
height (`position[1] = 0`), append it to the furniture collection and add a
matching unselected scene object. -/
def addFurniture (s : SceneState) (t : FurnitureType) : SceneState × FurnitureObject :=
  let p := createByType s.factory t
  let f := { p.1 with position := ⟨p.1.position.x, 0, p.1.position.z⟩ }
  let sceneObj : SceneObject :=
    { id := f.id, name := typeName t ++ " #" ++ idSuffix f.id, sotype := "furniture",
      selected := false, furnitureRef := some f.id, boundingBox := some f.boundingBox }
  ({ s with
     factory := p.2
     furniture := s.furniture ++ [f]
     sceneObjects := s.sceneObjects ++ [sceneObj] }, f)

/-- `RoomScene.removeFurniture`: if the object is present, splice it out of
the collection, splice out the scene object referencing it, and clear the
selection if it pointed at this furniture; otherwise do nothing. -/
def removeFurniture (s : SceneState) (f : FurnitureObject) : SceneState :=
  if f ∈ s.furniture then
    { s with
      furniture := s.furniture.erase f
      sceneObjects := s.sceneObjects.eraseP (fun o => o.furnitureRef == some f.id)
      selectedObject :=
        if (s.selectedObject.bind SceneObject.furnitureRef) == some f.id then none
        else s.selectedObject }
  else s

/-- In-place mutation of the first list entry satisfying `p` (the effect of
`find` followed by a field assignment on the returned reference). -/
def setFirst (p : SceneObject → Bool) (f : SceneObject → SceneObject) :
    List SceneObject → List SceneObject
  | [] => []
  | o :: rest => if p o then f o :: rest else o :: setFirst p f rest

/-- The shared miss outcome of `selectObject`: flags stay cleared and the
stored selection becomes `null`. -/
def selectMissed (s : SceneState) (objs : List SceneObject) :
    SceneState × Option SceneObject :=
  ({ s with sceneObjects := objs, selectedObject := none }, none)

/-- The walls block of `selectObject` (`// Try walls`). -/
def tryWalls (r : Ray) (s : SceneState) (objs : List SceneObject) :
    SceneState × Option SceneObject :=
  match objs.find? (fun o => o.id == "walls") with
  | some wl =>
    match wl.boundingBox with
    | some bb =>
      match intersectAABB r bb.min bb.max with
      | some _ =>
        let wl' := { wl with selected := true }
        ({ s with
           sceneObjects :=
             setFirst (fun o => o.id == "walls") (fun o => { o with selected := true }) objs
           selectedObject := some wl' }, some wl')
      | none => selectMissed s objs
    | none => selectMissed s objs
  | none => selectMissed s objs

/-- The floor block of `selectObject` (`// Try floor`), falling back to the
walls block. -/
def tryFloor (r : Ray) (s : SceneState) (objs : List SceneObject) :
    SceneState × Option SceneObject :=
  match objs.find? (fun o => o.id == "floor") with
  | some fl =>
    match fl.boundingBox with
    | some bb =>
      match intersectAABB r bb.min bb.max with
      | some _ =>
        let fl' := { fl with selected := true }
        ({ s with
           sceneObjects :=
             setFirst (fun o => o.id == "floor") (fun o => { o with selected := true }) objs
           selectedObject := some fl' }, some fl')
      | none => tryWalls r s objs
    | none => tryWalls r s objs
  | none => tryWalls r s objs

/-- `RoomScene.selectObject`: clear every selection flag, then try the
furniture collection (nearest hit), then the floor box, then the walls box;
set the flag and stored selection for whichever is chosen. -/
def selectObject (trig : ℚ → ℚ × ℚ) (r : Ray) (s : SceneState) :
    SceneState × Option SceneObject :=
  let objs := s.sceneObjects.map (fun o => { o with selected := false })
  match intersectFurniture trig r s.furniture with
  | some hit =>
    match objs.find? (fun o => o.furnitureRef == some hit.id) with
    | some fo =>
      let fo' := { fo with selected := true }
      ({ s with
         sceneObjects :=
           setFirst (fun o => o.furnitureRef == some hit.id)
             (fun o => { o with selected := true }) objs
         selectedObject := some fo' }, some fo')
    | none => tryFloor r s objs
  | none => tryFloor r s objs

/-- `RoomScene.clearSelection`. -/
def clearSelection (s : SceneState) : SceneState :=
  { s with
    sceneObjects := s.sceneObjects.map (fun o => { o with selected := false })
    selectedObject := none }

/-- The public mutating operations of the scene store. -/
inductive SceneOp where
  | add (t : FurnitureType)
  | remove (f : FurnitureObject)
  | select (trig : ℚ → ℚ × ℚ) (r : Ray)
  | clear

/-- Apply one operation. -/
def applyOp (s : SceneState) : SceneOp → SceneState
  | .add t => (addFurniture s t).1
  | .remove f => removeFurniture s f
  | .select trig r => (selectObject trig r s).1
  | .clear => clearSelection s

/-- Run a sequence of operations. -/
def run (s : SceneState) : List SceneOp → SceneState
  | [] => s
  | op :: ops => run (applyOp s op) ops

/-- The ids of every furniture instance ever created along a run, including
instances later removed. -/
def createdIds (s : SceneState) : List SceneOp → List String
  | [] => []
  | .add t :: ops => (addFurniture s t).2.id :: createdIds (applyOp s (.add t)) ops
  | .remove f :: ops => createdIds (applyOp s (.remove f)) ops
  | .select trig r :: ops => createdIds (applyOp s (.select trig r)) ops
  | .clear :: ops => createdIds (applyOp s .clear) ops

/-! ### C8: the box builder -/

/-- Euclidean dot product. -/
def dot (a b : Vec3) : ℚ := a.x * b.x + a.y * b.y + a.z * b.z

/-- Face `i` of a box geometry: its 4 consecutive vertices. -/
def faceSlice (g : GeometryData) (i : ℕ) : List Vertex :=
  (g.vertices.drop (4 * i)).take 4

/-- Centroid of face `i`'s vertex positions. -/
def faceCentroid (g : GeometryData) (i : ℕ) : Vec3 :=
  let sum := (faceSlice g i).foldl (fun a v => vadd a v.pos) ⟨0, 0, 0⟩
  ⟨sum.x / 4, sum.y / 4, sum.z / 4⟩

/-- C8: for positive dimensions, `createBox` yields 24 vertices and
36 indices; every vertex position lies inside
`[-w/2,w/2]×[-h/2,h/2]×[-d/2,d/2]`; every vertex normal has unit length;
and on each of the six faces the (shared) normal has positive dot product
with the vector from the box center (the origin) to that face's centroid. -/
theorem createBox_correct (w h d : ℚ) (hw : 0 < w) (hh : 0 < h) (hd : 0 < d) :
    ((createBox w h d).vertices.length = 24 ∧ (createBox w h d).indices.length = 36) ∧
    (∀ v ∈ (createBox w h d).vertices,
      -(w/2) ≤ v.pos.x ∧ v.pos.x ≤ w/2 ∧ -(h/2) ≤ v.pos.y ∧ v.pos.y ≤ h/2 ∧
      -(d/2) ≤ v.pos.z ∧ v.pos.z ≤ d/2) ∧
    (∀ v ∈ (createBox w h d).vertices,
      v.normal.x ^ 2 + v.normal.y ^ 2 + v.normal.z ^ 2 = 1) ∧
    (∀ i < 6, ∀ v ∈ faceSlice (createBox w h d) i,
      0 < dot v.normal (faceCentroid (createBox w h d) i)) := by
  refine ⟨⟨rfl, rfl⟩, ?_, ?_, ?_⟩
  · intro v hv
    simp only [createBox] at hv
    fin_cases hv <;>
      exact ⟨by linarith, by linarith, by linarith, by linarith, by linarith, by linarith⟩
  · intro v hv
    simp only [createBox] at hv
    fin_cases hv <;> norm_num
  · intro i hi v hv
    interval_cases i <;>
      · simp only [createBox, faceSlice, List.drop, List.take] at hv
        fin_cases hv <;>
          · simp only [dot, faceCentroid, faceSlice, createBox, vadd, List.foldl,
              List.drop, List.take]
            ring_nf
            linarith

/-- Witness for C8 at the unit box. -/
theorem createBox_correct_witness :
    (createBox 1 1 1).vertices.length = 24 ∧ (createBox 1 1 1).indices.length = 36 :=
  (createBox_correct 1 1 1 (by norm_num) (by norm_num) (by norm_num)).1

/-! ### C9: texture loading (`TextureLoader.loadTexture`) -/

/-- An RGBA8 image (dimensions plus byte values). -/
structure TexImage where
  width : ℕ
  height : ℕ
  pixels : List ℕ
deriving DecidableEq, Repr

/-- The gray 1×1 placeholder uploaded before the fetch:
`new Uint8Array([128, 128, 128, 255])`. -/
def placeholderImage : TexImage := ⟨1, 1, [128, 128, 128, 255]⟩

/-- A GL texture object, identified by its handle and carrying the image
last uploaded with `texImage2D`. -/
structure Texture where
  handle : ℕ
  uploaded : TexImage
deriving DecidableEq, Repr

/-- `TextureLoader.loadTexture`: return a cached texture if present; else
create a texture (`none` only if `gl.createTexture` fails), upload the gray
placeholder, and await the fetch — on success upload the image and cache it,
on failure (caught network/decode error) return the placeholder texture
uncached.  The asynchronous fetch's outcome is passed in explicitly. -/
def loadTexture (cache : List (String × Texture)) (url : String)
    (createResult : Option ℕ) (fetchResult : Except Unit TexImage) :
    Option Texture × List (String × Texture) :=
  match cache.find? (fun p => p.1 == url) with
  | some p => (some p.2, cache)
  | none =>
    match createResult with
    | none => (none, cache)
    | some hnd =>
      match fetchResult with
      | .ok img => (some ⟨hnd, img⟩, cache ++ [(url, (⟨hnd, img⟩ : Texture))])
      | .error _ => (some ⟨hnd, placeholderImage⟩, cache)

/-- C9: when the external fetch or decode fails, `loadTexture` neither
throws nor yields `none`: it yields the texture still holding the gray 1×1
placeholder, leaving the cache unchanged. -/
theorem loadTexture_failure_placeholder (cache : List (String × Texture))
    (url : String) (hnd : ℕ) (e : Unit)
    (hc : cache.find? (fun p => p.1 == url) = none) :
    loadTexture cache url (some hnd) (.error e) =
      (some ⟨hnd, placeholderImage⟩, cache) := by
  simp [loadTexture, hc]

/-- Witness for C9: a failing fetch against an empty cache. -/
theorem loadTexture_failure_placeholder_witness :
    loadTexture [] ("wood.jpg") (some 7) (.error ()) =
      (some ⟨7, placeholderImage⟩, []) :=
  loadTexture_failure_placeholder [] ("wood.jpg") 7 () rfl

/-! ### C2: the shadow factor of the main-pass fragment shader -/

/-- `projCoords` of `calculateShadow`: perspective divide followed by the
`* 0.5 + 0.5` remap into `[0,1]` texture space. -/
def projCoords (fp : Vec4) : Vec3 :=
  ⟨fp.x / fp.w * (1/2) + 1/2, fp.y / fp.w * (1/2) + 1/2, fp.z / fp.w * (1/2) + 1/2⟩

/-- `calculateShadow` (fragment shader): 0 outside the explicit bound
checks, else a 3×3 PCF average of `currentDepth - bias > sampledDepth`
comparisons (bias 0.005), divided by 9. -/
def calculateShadow (shadowMap : ℚ → ℚ → ℚ) (texelX texelY : ℚ) (fp : Vec4) : ℚ :=
  let p := projCoords fp
  if p.z > 1 ∨ p.x < 0 ∨ p.x > 1 ∨ p.y < 0 ∨ p.y > 1 then 0
  else
    let currentDepth := p.z
    let bias : ℚ := 5/1000
    let offs : List (ℚ × ℚ) :=
      [(-1, -1), (-1, 0), (-1, 1), (0, -1), (0, 0), (0, 1), (1, -1), (1, 0), (1, 1)]
    let shadow := offs.foldl
      (fun acc o =>
        acc + if currentDepth - bias > shadowMap (p.x + o.1 * texelX) (p.y + o.2 * texelY)
          then 1 else 0) 0
    shadow / 9

/-- C2: whenever the light-space projected coordinate lies outside the
`[0,1]³` volume, the shadow factor is exactly 0, for every shadow map whose
stored depths are nonnegative (as depth-texture values are).  The explicit
bound checks cover every escape except `z < 0`; there each PCF comparison
`z - bias > depth` fails against a nonnegative depth, so the average is 0 as
well. -/
theorem calculateShadow_outside_zero (shadowMap : ℚ → ℚ → ℚ) (texelX texelY : ℚ)
    (fp : Vec4) (hw : fp.w ≠ 0) (hmap : ∀ u v, 0 ≤ shadowMap u v)
    (hout : ¬ (0 ≤ (projCoords fp).x ∧ (projCoords fp).x ≤ 1 ∧
      0 ≤ (projCoords fp).y ∧ (projCoords fp).y ≤ 1 ∧
      0 ≤ (projCoords fp).z ∧ (projCoords fp).z ≤ 1)) :
    calculateShadow shadowMap texelX texelY fp = 0 := by
  unfold calculateShadow
  by_cases hbr : (projCoords fp).z > 1 ∨ (projCoords fp).x < 0 ∨ (projCoords fp).x > 1 ∨
      (projCoords fp).y < 0 ∨ (projCoords fp).y > 1
  · rw [if_pos hbr]
  · push_neg at hbr
    obtain ⟨hz1, hx0, hx1, hy0, hy1⟩ := hbr
    have hzneg : (projCoords fp).z < 0 := by
      by_contra hzn
      push_neg at hzn
      exact hout ⟨hx0, hx1, hy0, hy1, hzn, hz1⟩
    have key : ∀ u v,
        (if (projCoords fp).z - 5/1000 > shadowMap u v then (1:ℚ) else 0) = 0 := by
      intro u v
      rw [if_neg]
      push_neg
      linarith [hmap u v]
    rw [if_neg]
    · simp only [List.foldl, key, add_zero, zero_add]
      norm_num
    · push_neg
      exact ⟨hz1, hx0, hx1, hy0, hy1⟩

/-- Witness for C2: a fragment projecting to `(3/2, 3/2, 3/2)`, outside the
volume, with a constant-depth shadow map. -/
theorem calculateShadow_outside_zero_witness :
    calculateShadow (fun _ _ => 1/2) (1/2048) (1/2048) ⟨2, 2, 2, 1⟩ = 0 :=
  calculateShadow_outside_zero (fun _ _ => 1/2) (1/2048) (1/2048) ⟨2, 2, 2, 1⟩
    (by norm_num) (fun u v => by norm_num)
    (by simp only [projCoords]; norm_num)

/-! ### C10: removing absent furniture -/

/-- C10: `removeFurniture` with a furniture object not in the collection
leaves the whole scene state (collection, scene objects, selection)
unchanged. -/
theorem removeFurniture_absent_noop (s : SceneState) (f : FurnitureObject)
    (h : f ∉ s.furniture) : removeFurniture s f = s := by
  simp [removeFurniture, h]

/-- Witness for C10: removing a never-added chair from the initial scene. -/
theorem removeFurniture_absent_noop_witness :
    removeFurniture initState (createChair ⟨0, 0⟩).1 = initState :=
  removeFurniture_absent_noop initState (createChair ⟨0, 0⟩).1
    (by simp [initState])

/-! ### C6: add a chair, then remove it -/

/-- No entity is selected: no stored selection and every flag cleared. -/
def noSelection (s : SceneState) : Prop :=
  s.selectedObject = none ∧ ∀ o ∈ s.sceneObjects, o.selected = false

theorem eraseP_setFirst (q : SceneObject → Bool) (g : SceneObject → SceneObject)
    (hg : ∀ o, q (g o) = q o) (l : List SceneObject) :
    (setFirst q g l).eraseP q = l.eraseP q := by
  induction l with
  | nil => rfl
  | cons o rest ih =>
    by_cases h : q o
    · simp [setFirst, h, List.eraseP_cons, hg o]
    · simp [setFirst, h, List.eraseP_cons, ih]

theorem selected_of_mem_map_clear (l : List SceneObject) :
    ∀ o ∈ l.map (fun o => { o with selected := false }), o.selected = false := by
  intro o ho
  simp only [List.mem_map] at ho
  obtain ⟨o₀, _, rfl⟩ := ho
  rfl

/-- C6 (amended): from any state with an empty furniture collection and
nothing selected, adding a chair and then removing it leaves the collection
empty and the selection cleared — both when nothing happens in between, and
when the chair is picked (selected) in between.  (The no-prior-selection
hypothesis is necessary: a pre-existing selection of another entity
survives the pair of operations, see the counterexample below.) -/
theorem addFurniture_removeFurniture_chair (s : SceneState)
    (hf : s.furniture = []) (hsel : noSelection s) :
    ((removeFurniture (addFurniture s .chair).1 (addFurniture s .chair).2).furniture = [] ∧
      noSelection (removeFurniture (addFurniture s .chair).1 (addFurniture s .chair).2)) ∧
    (∀ trig r,
      intersectFurniture trig r (addFurniture s .chair).1.furniture =
        some (addFurniture s .chair).2 →
      (removeFurniture (selectObject trig r (addFurniture s .chair).1).1
          (addFurniture s .chair).2).furniture = [] ∧
      noSelection (removeFurniture (selectObject trig r (addFurniture s .chair).1).1
          (addFurniture s .chair).2)) := by
  obtain ⟨hselObj, hflags⟩ := hsel
  set f := (addFurniture s .chair).2 with hfdef
  set s1 := (addFurniture s .chair).1 with hs1
  set obj : SceneObject :=
    { id := f.id, name := typeName .chair ++ " #" ++ idSuffix f.id, sotype := "furniture",
      selected := false, furnitureRef := some f.id, boundingBox := some f.boundingBox }
    with hobj
  have hs1furn : s1.furniture = [f] := by
    simp [hs1, hfdef, addFurniture, hf]
  have hs1objs : s1.sceneObjects = s.sceneObjects ++ [obj] := by
    simp [hs1, hobj, hfdef, addFurniture]
  have hs1sel : s1.selectedObject = none := by
    simp [hs1, addFurniture, hselObj]
  have hmemf : f ∈ s1.furniture := by rw [hs1furn]; exact List.mem_singleton.2 rfl
  have herase : s1.furniture.erase f = [] := by rw [hs1furn]; simp
  constructor
  · refine ⟨?_, ?_, ?_⟩
    · rw [removeFurniture, if_pos hmemf]
      exact herase
    · rw [removeFurniture, if_pos hmemf]
      simp [hs1sel]
    · rw [removeFurniture, if_pos hmemf]
      intro o ho
      simp only at ho
      have hsub := (List.eraseP_sublist
        (p := fun o => o.furnitureRef == some f.id) s1.sceneObjects).subset ho
      rw [hs1objs] at hsub
      rcases List.mem_append.1 hsub with hmem | hmem
      · exact hflags o hmem
      · rw [List.mem_singleton.1 hmem, hobj]
  · intro trig r hhit
    set objs := s1.sceneObjects.map (fun o => { o with selected := false }) with hobjs
    have hp : (fun o => o.furnitureRef == some f.id) obj = true := by
      simp [hobj]
    have hmemobj : obj ∈ objs := by
      rw [hobjs, hs1objs]
      refine List.mem_map.2 ⟨obj, by simp, ?_⟩
      rw [hobj]
    obtain ⟨fo, hfo⟩ : ∃ fo, objs.find? (fun o => o.furnitureRef == some f.id) = some fo := by
      cases hfind : objs.find? (fun o => o.furnitureRef == some f.id) with
      | some fo => exact ⟨fo, rfl⟩
      | none =>
        rw [List.find?_eq_none] at hfind
        exact absurd hp (by simpa using hfind obj hmemobj)
    have hforef : fo.furnitureRef = some f.id := by
      have := List.find?_some hfo
      simpa using this
    have hsel2 : (selectObject trig r s1).1 =
        { s1 with
          sceneObjects := setFirst (fun o => o.furnitureRef == some f.id)
            (fun o => { o with selected := true }) objs
          selectedObject := some { fo with selected := true } } := by
      rw [selectObject]
      rw [hhit]
      simp only [← hobjs, hfo]
    rw [hsel2]
    have hmemf2 : f ∈ ({ s1 with
        sceneObjects := setFirst (fun o => o.furnitureRef == some f.id)
          (fun o => { o with selected := true }) objs
        selectedObject := some { fo with selected := true } } : SceneState).furniture :=
      hmemf
    refine ⟨?_, ?_, ?_⟩
    · rw [removeFurniture, if_pos hmemf2]
      exact herase
    · rw [removeFurniture, if_pos hmemf2]
      simp [hforef]
    · rw [removeFurniture, if_pos hmemf2]
      intro o ho
      simp only at ho
      rw [eraseP_setFirst (fun o => o.furnitureRef == some f.id)
        (fun o => { o with selected := true }) (fun o => rfl)] at ho
      have hsub := (List.eraseP_sublist
        (p := fun o => o.furnitureRef == some f.id) objs).subset ho
      exact selected_of_mem_map_clear s1.sceneObjects o hsub

/-- Witness for C6 starting from the freshly constructed scene. -/
theorem addFurniture_removeFurniture_chair_witness :
    (removeFurniture (addFurniture initState .chair).1
      (addFurniture initState .chair).2).furniture = [] ∧
    noSelection (removeFurniture (addFurniture initState .chair).1
      (addFurniture initState .chair).2) :=
  (addFurniture_removeFurniture_chair initState rfl
    ⟨rfl, by intro o ho; fin_cases ho <;> rfl⟩).1

theorem selectObject_furniture (trig : ℚ → ℚ × ℚ) (r : Ray) (s : SceneState) :
    (selectObject trig r s).1.furniture = s.furniture := by
  simp only [selectObject, tryFloor, tryWalls, selectMissed]
  repeat' split
  all_goals rfl

/-- `removeFurniture` keeps a selection that does not reference any
furniture (e.g. the floor or walls). -/
theorem removeFurniture_selected_other (s : SceneState) (f : FurnitureObject)
    (hsel : s.selectedObject.bind SceneObject.furnitureRef = none) :
    (removeFurniture s f).selectedObject = s.selectedObject := by
  by_cases h : f ∈ s.furniture
  · simp [removeFurniture, h, hsel]
  · simp [removeFurniture, h]

/-- C6 as stated: from every starting state with an empty furniture
collection — regardless of any prior selection — adding a chair and then
removing it would leave the collection empty and the selection cleared,
both without and with the chair being picked in between. -/
def C6ClaimHolds : Prop :=
  ∀ s : SceneState, s.furniture = [] →
    ((removeFurniture (addFurniture s .chair).1 (addFurniture s .chair).2).furniture = [] ∧
      noSelection (removeFurniture (addFurniture s .chair).1 (addFurniture s .chair).2)) ∧
    (∀ trig r,
      intersectFurniture trig r (addFurniture s .chair).1.furniture =
        some (addFurniture s .chair).2 →
      (removeFurniture (selectObject trig r (addFurniture s .chair).1).1
          (addFurniture s .chair).2).furniture = [] ∧
      noSelection (removeFurniture (selectObject trig r (addFurniture s .chair).1).1
          (addFurniture s .chair).2))

/-- C6 counterexample: pick the floor first (a downward ray from `(0,2,0)`
selects it), then add a chair and remove it.  `removeFurniture` clears the
selection only when it references the removed instance, so the floor stays
selected and the selection is not cleared. -/
theorem addFurniture_removeFurniture_chair_counterexample : ¬ C6ClaimHolds := by
  intro hclaim
  set sb := (selectObject (fun _ => (1, 0)) ⟨⟨0, 2, 0⟩, ⟨0, -1, 0⟩⟩ initState).1 with hsb
  have hfurn : sb.furniture = [] := selectObject_furniture _ _ _
  have hsel : sb.selectedObject =
      some { id := "floor", name := "Floor", sotype := "floor", selected := true,
             furnitureRef := none,
             boundingBox := some ⟨⟨-10, -1/10, -10⟩, ⟨10, 0, 10⟩⟩ } := by
    rw [hsb]
    norm_num [selectObject, intersectFurniture, List.foldl, tryFloor, tryWalls,
      selectMissed, setFirst, List.find?, List.map, initState, intersectAABB,
      sortPair, jgt, jlt, jdiv, min_def, max_def, decide_eq_true_eq]
  have hbind : (addFurniture sb .chair).1.selectedObject.bind
      SceneObject.furnitureRef = none := by
    rw [show (addFurniture sb .chair).1.selectedObject = sb.selectedObject from rfl,
      hsel]
    rfl
  have h3 := removeFurniture_selected_other (addFurniture sb .chair).1
    (addFurniture sb .chair).2 hbind
  have h2 := ((hclaim sb hfurn).1).2.1
  exact Option.noConfusion (hsel.symm.trans (h3.symm.trans h2))

/-! ### C5: at most one selected entity -/

/-- The number of scene objects whose selection flag is set. -/
def countSelected (s : SceneState) : ℕ :=
  (s.sceneObjects.filter (fun o => o.selected)).length

theorem countSelected_setFirst_mark (q : SceneObject → Bool) (l : List SceneObject)
    (hl : ∀ o ∈ l, o.selected = false) :
    ((setFirst q (fun o => { o with selected := true }) l).filter
      (fun o => o.selected)).length ≤ 1 := by
  induction l with
  | nil => simp [setFirst]
  | cons o rest ih =>
    by_cases h : q o
    · have hrest : rest.filter (fun o => o.selected) = [] :=
        List.filter_eq_nil.2 (fun a ha => by
          simp [hl a (List.mem_cons_of_mem _ ha)])
      simp [setFirst, h, List.filter_cons, hrest]
    · have h0 : o.selected = false := hl o (List.mem_cons_self _ _)
      have := ih (fun a ha => hl a (List.mem_cons_of_mem _ ha))
      simpa [setFirst, h, List.filter_cons, h0] using this

theorem filter_selected_clear (l : List SceneObject) :
    ((l.map (fun o => { o with selected := false })).filter
      (fun o => o.selected)).length ≤ 1 := by
  have : (l.map (fun o => { o with selected := false })).filter
      (fun o => o.selected) = [] :=
    List.filter_eq_nil.2 (fun a ha => by
      simp [selected_of_mem_map_clear l a ha])
  simp [this]

theorem selectObject_atMostOne (trig : ℚ → ℚ × ℚ) (r : Ray) (s : SceneState) :
    countSelected (selectObject trig r s).1 ≤ 1 := by
  have hclear := selected_of_mem_map_clear s.sceneObjects
  simp only [countSelected, selectObject, tryFloor, tryWalls, selectMissed]
  repeat' split
  all_goals
    first
      | exact countSelected_setFirst_mark _ _ hclear
      | exact filter_selected_clear s.sceneObjects

/-- C5: along every operation sequence from the initial scene at most one
entity carries the selection flag; moreover `selectObject` (re)establishes
the invariant from any state whatsoever — it clears every flag before
setting at most one — and whatever it returns is flagged selected. -/
theorem atMostOne_selected (ops : List SceneOp) :
    countSelected (run initState ops) ≤ 1 ∧
    (∀ trig r s, countSelected (selectObject trig r s).1 ≤ 1) ∧
    (∀ trig r s o, (selectObject trig r s).2 = some o → o.selected = true) := by
  refine ⟨?_, fun trig r s => selectObject_atMostOne trig r s, ?_⟩
  · have step : ∀ (op : SceneOp) (s : SceneState),
        countSelected s ≤ 1 → countSelected (applyOp s op) ≤ 1 := by
      intro op s hs
      cases op with
      | add t =>
        have : countSelected (applyOp s (.add t)) = countSelected s := by
          simp [applyOp, addFurniture, countSelected, List.filter_append]
        rw [this]
        exact hs
      | remove f =>
        by_cases h : f ∈ s.furniture
        · refine le_trans ?_ hs
          simp only [applyOp, removeFurniture, if_pos h, countSelected]
          exact List.Sublist.length_le
            ((List.eraseP_sublist s.sceneObjects).filter _)
        · simp [applyOp, removeFurniture, h]
          exact hs
      | select trig r => exact selectObject_atMostOne trig r s
      | clear =>
        have : countSelected (applyOp s .clear) = 0 := by
          have : (s.sceneObjects.map (fun o => { o with selected := false })).filter
              (fun o => o.selected) = [] :=
            List.filter_eq_nil.2 (fun a ha => by
              simp [selected_of_mem_map_clear s.sceneObjects a ha])
          simp [applyOp, clearSelection, countSelected, this]
        simp [this]
    have hrun : ∀ (l : List SceneOp) (s : SceneState),
        countSelected s ≤ 1 → countSelected (run s l) ≤ 1 := by
      intro l
      induction l with
      | nil => intro s hs; simpa [run] using hs
      | cons op rest ih =>
        intro s hs
        rw [run]
        exact ih _ (step op s hs)
    exact hrun ops initState (by simp [countSelected, initState])
  · intro trig r s o h
    simp only [selectObject, tryFloor, tryWalls, selectMissed] at h
    repeat' split at h
    all_goals
      first
        | exact Option.noConfusion h
        | (cases Option.some.inj h; rfl)

/-! ### C7: ids are never reused -/

theorem digitChar_inj_lt : ∀ a < 10, ∀ b < 10, Nat.digitChar a = Nat.digitChar b → a = b := by
  decide

theorem map_digitChar_inj (l1 : List ℕ) : ∀ (l2 : List ℕ),
    (∀ d ∈ l1, d < 10) → (∀ d ∈ l2, d < 10) →
    l1.map Nat.digitChar = l2.map Nat.digitChar → l1 = l2 := by
  induction l1 with
  | nil =>
    intro l2 _ _ h
    cases l2 with
    | nil => rfl
    | cons b t => simp at h
  | cons a t1 ih =>
    intro l2 h1 h2 h
    cases l2 with
    | nil => simp at h
    | cons b t2 =>
      simp only [List.map_cons, List.cons.injEq] at h
      have ha := h1 a (List.mem_cons_self _ _)
      have hb := h2 b (List.mem_cons_self _ _)
      rw [digitChar_inj_lt a ha b hb h.1,
        ih t2 (fun d hd => h1 d (List.mem_cons_of_mem _ hd))
          (fun d hd => h2 d (List.mem_cons_of_mem _ hd)) h.2]

theorem natStr_inj : Function.Injective natStr := by
  have digitsOfStr : ∀ {m : ℕ}, m ≠ 0 →
      ((Nat.digits 10 m).map Nat.digitChar).reverse = ['0'] → False := by
    intro m hm h
    have h2 : (Nat.digits 10 m).map Nat.digitChar = ['0'] := by
      have := congrArg List.reverse h
      simpa using this
    have h3 : Nat.digits 10 m = [0] := by
      refine map_digitChar_inj _ [0]
        (fun d hd => Nat.digits_lt_base (by norm_num) hd) ?_ (by simpa using h2)
      intro d hd
      simp only [List.mem_singleton] at hd
      omega
    have := Nat.ofDigits_digits 10 m
    rw [h3] at this
    simp [Nat.ofDigits] at this
    exact hm this.symm
  intro a b h
  unfold natStr at h
  by_cases ha : a = 0 <;> by_cases hb : b = 0
  · rw [ha, hb]
  · exfalso
    rw [if_pos ha, if_neg hb] at h
    have hdata := congrArg String.data h
    exact digitsOfStr hb (hdata.symm)
  · exfalso
    rw [if_neg ha, if_pos hb] at h
    have hdata := congrArg String.data h
    exact digitsOfStr ha hdata
  · rw [if_neg ha, if_neg hb] at h
    have hdata := congrArg String.data h
    have hrev : (Nat.digits 10 a).map Nat.digitChar = (Nat.digits 10 b).map Nat.digitChar := by
      have := congrArg List.reverse hdata
      simpa using this
    have := map_digitChar_inj _ _
      (fun d hd => Nat.digits_lt_base (by norm_num) hd)
      (fun d hd => Nat.digits_lt_base (by norm_num) hd) hrev
    have h2 := congrArg (Nat.ofDigits 10) this
    rwa [Nat.ofDigits_digits, Nat.ofDigits_digits] at h2

theorem genId_inj : Function.Injective genId := by
  intro a b h
  have hdata : ("furniture_".data ++ (natStr a).data) =
      ("furniture_".data ++ (natStr b).data) := congrArg String.data h
  have := List.append_cancel_left hdata
  exact natStr_inj (String.ext this)

theorem addFurniture_id (s : SceneState) (t : FurnitureType) :
    (addFurniture s t).2.id = genId s.factory.nextId := by
  cases t <;> rfl

theorem addFurniture_nextId (s : SceneState) (t : FurnitureType) :
    (addFurniture s t).1.factory.nextId = s.factory.nextId + 1 := by
  cases t <;> rfl

theorem removeFurniture_factory (s : SceneState) (f : FurnitureObject) :
    (removeFurniture s f).factory = s.factory := by
  by_cases h : f ∈ s.furniture <;> simp [removeFurniture, h]

theorem selectObject_factory (trig : ℚ → ℚ × ℚ) (r : Ray) (s : SceneState) :
    (selectObject trig r s).1.factory = s.factory := by
  simp only [selectObject, tryFloor, tryWalls, selectMissed]
  repeat' split
  all_goals rfl

theorem applyOp_nextId_le (s : SceneState) (op : SceneOp) :
    s.factory.nextId ≤ (applyOp s op).factory.nextId := by
  cases op with
  | add t => rw [applyOp, addFurniture_nextId]; exact Nat.le_succ _
  | remove f => rw [applyOp, removeFurniture_factory]
  | select trig r => rw [applyOp, selectObject_factory]
  | clear => exact le_refl _

theorem createdIds_ge (ops : List SceneOp) : ∀ (s : SceneState),
    ∀ i ∈ createdIds s ops, ∃ k, s.factory.nextId ≤ k ∧ i = genId k := by
  induction ops with
  | nil => intro s i h; simp [createdIds] at h
  | cons op rest ih =>
    intro s i h
    have hstep : ∀ j ∈ createdIds (applyOp s op) rest,
        ∃ k, s.factory.nextId ≤ k ∧ j = genId k := by
      intro j hj
      obtain ⟨k, hk, hjk⟩ := ih (applyOp s op) j hj
      exact ⟨k, le_trans (applyOp_nextId_le s op) hk, hjk⟩
    cases op with
    | add t =>
      rw [createdIds] at h
      rcases List.mem_cons.1 h with rfl | h
      · exact ⟨s.factory.nextId, le_refl _, addFurniture_id s t⟩
      · exact hstep _ h
    | remove f => exact hstep _ (by rw [createdIds] at h; exact h)
    | select trig r => exact hstep _ (by rw [createdIds] at h; exact h)
    | clear => exact hstep _ (by rw [createdIds] at h; exact h)

/-- C7: along every operation sequence (additions and removals in any
order), the ids of all furniture instances ever created are pairwise
distinct — deletion never causes reuse. -/
theorem createdIds_pairwise_ne (ops : List SceneOp) :
    (createdIds initState ops).Pairwise (· ≠ ·) := by
  suffices hgen : ∀ (l : List SceneOp) (s : SceneState),
      (createdIds s l).Pairwise (· ≠ ·) from hgen ops initState
  intro l
  induction l with
  | nil => intro s; simp [createdIds]
  | cons op rest ih =>
    intro s
    cases op with
    | add t =>
      rw [createdIds]
      refine List.Pairwise.cons ?_ (ih _)
      intro j hj
      obtain ⟨k, hk, rfl⟩ := createdIds_ge rest _ j hj
      rw [applyOp, addFurniture_nextId] at hk
      rw [addFurniture_id]
      intro hcontra
      have := genId_inj hcontra
      omega
    | remove f => rw [createdIds]; exact ih _
    | select trig r => rw [createdIds]; exact ih _
    | clear => rw [createdIds]; exact ih _

/-! ### C1: what the picking operation selects -/

/-- A value that is neither NaN nor `-Infinity` (the shapes a hit distance
can take). -/
def jreal : JSNum → Bool
  | .nan => false
  | .neginf => false
  | _ => true

theorem jlt_asymm_real (a b : JSNum) (ha : jreal a = true) (hb : jreal b = true)
    (h : jlt a b = true) : jlt b a = false := by
  cases a <;> cases b <;> simp_all [jlt, jreal] <;> linarith

theorem jle_trans_real (a b c : JSNum) (ha : jreal a = true) (hb : jreal b = true)
    (hc : jreal c = true) (h1 : jlt b a = false) (h2 : jlt c b = false) :
    jlt c a = false := by
  cases a <;> cases b <;> cases c <;> simp_all [jlt, jreal] <;> linarith

/-- Any distance the slab test actually returns compares above 0 (so it is a
positive rational or `+Infinity`, never NaN or `-Infinity`). -/
theorem intersectAABB_some_pos (r : Ray) (mn mx : Vec3) (t : JSNum)
    (h : intersectAABB r mn mx = some t) : jlt (.fin 0) t = true := by
  simp only [intersectAABB] at h
  repeat' split at h
  all_goals first
    | exact Option.noConfusion h
    | (cases Option.some.inj h; simp_all [jgt])

theorem jreal_of_pos (t : JSNum) (h : jlt (.fin 0) t = true) : jreal t = true := by
  cases t <;> simp_all [jlt, jreal]

theorem intersectBox_some_pos (trig : ℚ → ℚ × ℚ) (r : Ray) (f : FurnitureObject)
    (t : JSNum) (h : intersectBox trig r f = some t) : jlt (.fin 0) t = true :=
  intersectAABB_some_pos _ _ _ _ h

/-- The comparison step of `intersectFurniture`'s loop. -/
def scanStep (trig : ℚ → ℚ × ℚ) (r : Ray) (acc : Option FurnitureObject × JSNum)
    (item : FurnitureObject) : Option FurnitureObject × JSNum :=
  match intersectBox trig r item with
  | some d => if jlt d acc.2 then (some item, d) else acc
  | none => acc

theorem intersectFurniture_eq_fold (trig : ℚ → ℚ × ℚ) (r : Ray)
    (l : List FurnitureObject) :
    intersectFurniture trig r l = (l.foldl (scanStep trig r) (none, .posinf)).1 := rfl

/-- The scan invariant: the running best distance stays NaN-free and only
decreases, every processed candidate's hit distance is not below the final
best, a returned item attains the final best, and if nothing was ever taken
the accumulator passes through unchanged. -/
theorem intersectFurniture_fold (trig : ℚ → ℚ × ℚ) (r : Ray) :
    ∀ (l : List FurnitureObject) (acc : Option FurnitureObject × JSNum),
    jreal acc.2 = true →
    jreal (l.foldl (scanStep trig r) acc).2 = true ∧
    jlt acc.2 (l.foldl (scanStep trig r) acc).2 = false ∧
    (∀ g ∈ l, ∀ d', intersectBox trig r g = some d' →
      jlt d' (l.foldl (scanStep trig r) acc).2 = false) ∧
    (∀ f, (l.foldl (scanStep trig r) acc).1 = some f →
      ((l.foldl (scanStep trig r) acc).1 = acc.1 ∧
        (l.foldl (scanStep trig r) acc).2 = acc.2) ∨
      (f ∈ l ∧ intersectBox trig r f = some (l.foldl (scanStep trig r) acc).2)) ∧
    (((l.foldl (scanStep trig r) acc).1 = acc.1 ∧
        (l.foldl (scanStep trig r) acc).2 = acc.2) ∨
      ∃ f ∈ l, (l.foldl (scanStep trig r) acc).1 = some f) := by
  intro l
  induction l with
  | nil =>
    intro acc hacc
    refine ⟨hacc, ?_, ?_, ?_, Or.inl ⟨rfl, rfl⟩⟩
    · cases h2 : acc.2 <;> simp_all [jlt, jreal]
    · intro g hg
      exact absurd hg (List.not_mem_nil g)
    · intro f _
      exact Or.inl ⟨rfl, rfl⟩
  | cons x rest ih =>
    intro acc hacc
    simp only [List.foldl_cons]
    rcases hbox : intersectBox trig r x with _ | d
    · have hstep : scanStep trig r acc x = acc := by simp [scanStep, hbox]
      rw [hstep]
      obtain ⟨i1, i2, i3, i4, i5⟩ := ih acc hacc
      refine ⟨i1, i2, ?_, ?_, ?_⟩
      · intro g hg d' hd'
        rcases List.mem_cons.1 hg with rfl | hg
        · rw [hbox] at hd'
          exact Option.noConfusion hd'
        · exact i3 g hg d' hd'
      · intro f hf
        rcases i4 f hf with h | ⟨hmem, hbx⟩
        · exact Or.inl h
        · exact Or.inr ⟨List.mem_cons_of_mem _ hmem, hbx⟩
      · rcases i5 with h | ⟨f, hf, hres⟩
        · exact Or.inl h
        · exact Or.inr ⟨f, List.mem_cons_of_mem _ hf, hres⟩
    · have hdpos := intersectBox_some_pos trig r x d hbox
      have hdreal := jreal_of_pos d hdpos
      by_cases htake : jlt d acc.2 = true
      · have hstep : scanStep trig r acc x = (some x, d) := by
          simp [scanStep, hbox, htake]
        rw [hstep]
        obtain ⟨i1, i2, i3, i4, i5⟩ := ih (some x, d) hdreal
        refine ⟨i1, ?_, ?_, ?_, ?_⟩
        · exact jle_trans_real _ d acc.2 i1 hdreal hacc i2
            (jlt_asymm_real d acc.2 hdreal hacc htake)
        · intro g hg d' hd'
          rcases List.mem_cons.1 hg with rfl | hg
          · rw [hbox] at hd'
            cases Option.some.inj hd'
            exact i2
          · exact i3 g hg d' hd'
        · intro f hf
          rcases i4 f hf with ⟨h1, h2⟩ | ⟨hmem, hbx⟩
          · right
            have hfx : f = x := by
              rw [h1] at hf
              exact (Option.some.inj hf).symm
            subst hfx
            exact ⟨List.mem_cons_self _ _, by rw [hbox, h2]⟩
          · exact Or.inr ⟨List.mem_cons_of_mem _ hmem, hbx⟩
        · rcases i5 with ⟨h1, _⟩ | ⟨f, hf, hres⟩
          · exact Or.inr ⟨x, List.mem_cons_self _ _, h1⟩
          · exact Or.inr ⟨f, List.mem_cons_of_mem _ hf, hres⟩
      · have hstep : scanStep trig r acc x = acc := by
          simp only [scanStep, hbox]
          rw [if_neg (by simp_all)]
        rw [hstep]
        obtain ⟨i1, i2, i3, i4, i5⟩ := ih acc hacc
        have hd_ge : jlt d (rest.foldl (scanStep trig r) acc).2 = false := by
          refine jle_trans_real _ acc.2 d i1 hacc hdreal i2 ?_
          simpa using htake
        refine ⟨i1, i2, ?_, ?_, ?_⟩
        · intro g hg d' hd'
          rcases List.mem_cons.1 hg with rfl | hg
          · rw [hbox] at hd'
            cases Option.some.inj hd'
            exact hd_ge
          · exact i3 g hg d' hd'
        · intro f hf
          rcases i4 f hf with h | ⟨hmem, hbx⟩
          · exact Or.inl h
          · exact Or.inr ⟨List.mem_cons_of_mem _ hmem, hbx⟩
        · rcases i5 with h | ⟨f, hf, hres⟩
          · exact Or.inl h
          · exact Or.inr ⟨f, List.mem_cons_of_mem _ hf, hres⟩

theorem intersectFurniture_nearest (trig : ℚ → ℚ × ℚ) (r : Ray)
    (l : List FurnitureObject) (f : FurnitureObject)
    (h : intersectFurniture trig r l = some f) :
    f ∈ l ∧ ∃ d, intersectBox trig r f = some d ∧
      ∀ g ∈ l, ∀ d', intersectBox trig r g = some d' → jlt d' d = false := by
  rw [intersectFurniture_eq_fold] at h
  obtain ⟨_, _, i3, i4, _⟩ := intersectFurniture_fold trig r l (none, .posinf) rfl
  rcases i4 f h with ⟨h1, _⟩ | ⟨hmem, hbx⟩
  · rw [h] at h1
    exact Option.noConfusion h1
  · exact ⟨hmem, _, hbx, fun g hg d' hd' => i3 g hg d' hd'⟩

theorem intersectFurniture_none (trig : ℚ → ℚ × ℚ) (r : Ray)
    (l : List FurnitureObject) (h : intersectFurniture trig r l = none) :
    ∀ g ∈ l, intersectBox trig r g = none ∨ intersectBox trig r g = some .posinf := by
  rw [intersectFurniture_eq_fold] at h
  obtain ⟨_, _, i3, _, i5⟩ := intersectFurniture_fold trig r l (none, .posinf) rfl
  have hsame : (l.foldl (scanStep trig r) (none, .posinf)).2 = .posinf := by
    rcases i5 with ⟨_, h2⟩ | ⟨f, _, hres⟩
    · exact h2
    · rw [h] at hres
      exact Option.noConfusion hres
  intro g hg
  rcases hbx : intersectBox trig r g with _ | d
  · exact Or.inl rfl
  · right
    have := i3 g hg d hbx
    rw [hsame] at this
    have hdpos := intersectBox_some_pos trig r g d hbx
    cases d <;> simp_all [jlt]

theorem find?_map_clear (p : SceneObject → Bool)
    (hp : ∀ o, p { o with selected := false } = p o) (l : List SceneObject) :
    (l.map (fun o => { o with selected := false })).find? p =
      (l.find? p).map (fun o => { o with selected := false }) := by
  induction l with
  | nil => rfl
  | cons o rest ih =>
    by_cases h : p o
    · simp [List.find?_cons, hp o, h]
    · simp [List.find?_cons, hp o, h, ih]

theorem tryWalls_some_id (r : Ray) (s : SceneState) (objs : List SceneObject)
    (o : SceneObject) (h : (tryWalls r s objs).2 = some o) : o.id = "walls" := by
  rcases hW : objs.find? (fun o => o.id == "walls") with _ | wl <;>
    simp only [tryWalls, hW, selectMissed] at h
  · exact Option.noConfusion h
  · rcases hbb : wl.boundingBox with _ | bb <;> simp only [hbb, selectMissed] at h
    · exact Option.noConfusion h
    · rcases hIA : intersectAABB r bb.min bb.max with _ | v <;>
        simp only [hIA, selectMissed] at h
      · exact Option.noConfusion h
      · cases Option.some.inj h
        have := List.find?_some hW
        simpa using this

theorem tryWalls_none (r : Ray) (s : SceneState) (objs : List SceneObject)
    (h : (tryWalls r s objs).2 = none) :
    ∀ wl, objs.find? (fun o => o.id == "walls") = some wl →
      ∀ bb, wl.boundingBox = some bb → intersectAABB r bb.min bb.max = none := by
  intro wl hW bb hbb
  rcases hIA : intersectAABB r bb.min bb.max with _ | v
  · rfl
  · exfalso
    simp only [tryWalls, hW, hbb, hIA, selectMissed] at h
    exact Option.noConfusion h

theorem tryFloor_some_id (r : Ray) (s : SceneState) (objs : List SceneObject)
    (o : SceneObject) (h : (tryFloor r s objs).2 = some o) :
    o.id = "floor" ∨ o.id = "walls" := by
  rcases hF : objs.find? (fun o => o.id == "floor") with _ | fl <;>
    simp only [tryFloor, hF] at h
  · exact Or.inr (tryWalls_some_id r s objs o h)
  · rcases hbb : fl.boundingBox with _ | bb <;> simp only [hbb] at h
    · exact Or.inr (tryWalls_some_id r s objs o h)
    · rcases hIA : intersectAABB r bb.min bb.max with _ | v <;> simp only [hIA] at h
      · exact Or.inr (tryWalls_some_id r s objs o h)
      · cases Option.some.inj h
        have := List.find?_some hF
        exact Or.inl (by simpa using this)

theorem tryFloor_none_floor (r : Ray) (s : SceneState) (objs : List SceneObject)
    (h : (tryFloor r s objs).2 = none) :
    ∀ fl, objs.find? (fun o => o.id == "floor") = some fl →
      ∀ bb, fl.boundingBox = some bb → intersectAABB r bb.min bb.max = none := by
  intro fl hF bb hbb
  rcases hIA : intersectAABB r bb.min bb.max with _ | v
  · rfl
  · exfalso
    simp only [tryFloor, hF, hbb, hIA] at h
    exact Option.noConfusion h

theorem tryFloor_none_walls (r : Ray) (s : SceneState) (objs : List SceneObject)
    (h : (tryFloor r s objs).2 = none) :
    ∀ wl, objs.find? (fun o => o.id == "walls") = some wl →
      ∀ bb, wl.boundingBox = some bb → intersectAABB r bb.min bb.max = none := by
  rcases hF : objs.find? (fun o => o.id == "floor") with _ | fl <;>
    simp only [tryFloor, hF] at h
  · exact tryWalls_none r s objs h
  · rcases hbb : fl.boundingBox with _ | bb <;> simp only [hbb] at h
    · exact tryWalls_none r s objs h
    · rcases hIA : intersectAABB r bb.min bb.max with _ | v <;> simp only [hIA] at h
      · exact tryWalls_none r s objs h
      · exact Option.noConfusion h

/-- Inside the fallback chain, returning the walls object means the floor
block fell through: any present floor box was missed by the ray. -/
theorem tryFloor_walls_floor_miss (r : Ray) (s : SceneState)
    (objs : List SceneObject) (o : SceneObject)
    (h : (tryFloor r s objs).2 = some o) (hid : o.id = "walls") :
    ∀ fl, objs.find? (fun x => x.id == "floor") = some fl →
      ∀ bb, fl.boundingBox = some bb → intersectAABB r bb.min bb.max = none := by
  intro fl hF bb hbb
  rcases hIA : intersectAABB r bb.min bb.max with _ | v
  · rfl
  · exfalso
    simp only [tryFloor, hF, hbb, hIA] at h
    cases Option.some.inj h
    have hfid := List.find?_some hF
    simp only [beq_iff_eq] at hfid
    rw [show ({ fl with selected := true } : SceneObject).id = fl.id from rfl,
      hfid] at hid
    exact absurd hid (by decide)

/-- C1 (amended): the nearest-hit rule holds among furniture instances only;
floor and walls are priority fallbacks.  Precisely: (1) a furniture pick is a
member of the collection attaining the smallest hit distance among all
furniture; (2) if no furniture is picked, every furniture box either misses
or degenerates to an infinite distance; (3) a returned non-furniture entity
is the floor or the walls object; (4) the walls object is returned only if
any present floor box was missed (a floor hit always wins over walls); (5)
when every furniture hit has its scene object present, a non-furniture
entity is returned only if no furniture was hit at all; and (6) under the
same condition a `none` result means no furniture was hit and both the
floor and walls boxes (when present) miss. -/
theorem selectObject_priority_nearest (trig : ℚ → ℚ × ℚ) (s : SceneState) (r : Ray) :
    (∀ f, intersectFurniture trig r s.furniture = some f →
      f ∈ s.furniture ∧ ∃ d, intersectBox trig r f = some d ∧
        ∀ g ∈ s.furniture, ∀ d', intersectBox trig r g = some d' →
          jlt d' d = false) ∧
    (intersectFurniture trig r s.furniture = none →
      ∀ g ∈ s.furniture, intersectBox trig r g = none ∨
        intersectBox trig r g = some .posinf) ∧
    (∀ o, (selectObject trig r s).2 = some o → o.furnitureRef = none →
      o.id = "floor" ∨ o.id = "walls") ∧
    (∀ o, (selectObject trig r s).2 = some o → o.furnitureRef = none →
      o.id = "walls" →
      ∀ ob, s.sceneObjects.find? (fun x => x.id == "floor") = some ob →
        ∀ bb, ob.boundingBox = some bb → intersectAABB r bb.min bb.max = none) ∧
    ((∀ f, intersectFurniture trig r s.furniture = some f →
        ∃ ob ∈ s.sceneObjects, ob.furnitureRef = some f.id) →
      (∀ o, (selectObject trig r s).2 = some o → o.furnitureRef = none →
        intersectFurniture trig r s.furniture = none) ∧
      ((selectObject trig r s).2 = none →
        intersectFurniture trig r s.furniture = none ∧
        (∀ ob, s.sceneObjects.find? (fun o => o.id == "floor") = some ob →
          ∀ bb, ob.boundingBox = some bb → intersectAABB r bb.min bb.max = none) ∧
        (∀ ob, s.sceneObjects.find? (fun o => o.id == "walls") = some ob →
          ∀ bb, ob.boundingBox = some bb → intersectAABB r bb.min bb.max = none))) := by
  have hfind : ∀ (hit : FurnitureObject),
      (∀ f, intersectFurniture trig r s.furniture = some f →
        ∃ ob ∈ s.sceneObjects, ob.furnitureRef = some f.id) →
      intersectFurniture trig r s.furniture = some hit →
      ∃ fo, (s.sceneObjects.map (fun o => { o with selected := false })).find?
        (fun o => o.furnitureRef == some hit.id) = some fo := by
    intro hit hwf hhit
    obtain ⟨ob, hob, href⟩ := hwf hit hhit
    cases hres : (s.sceneObjects.map (fun o => { o with selected := false })).find?
        (fun o => o.furnitureRef == some hit.id) with
    | some fo => exact ⟨fo, rfl⟩
    | none =>
      exfalso
      rw [List.find?_eq_none] at hres
      exact hres ({ ob with selected := false }) (List.mem_map.2 ⟨ob, hob, rfl⟩)
        (by simp [href])
  refine ⟨fun f hf => intersectFurniture_nearest trig r s.furniture f hf,
    fun h => intersectFurniture_none trig r s.furniture h, ?_, ?_, ?_⟩
  · intro o h href
    rcases hIF : intersectFurniture trig r s.furniture with _ | hit <;>
      simp only [selectObject, hIF] at h
    · exact tryFloor_some_id r s _ o h
    · rcases hFF : (s.sceneObjects.map (fun o => { o with selected := false })).find?
          (fun o => o.furnitureRef == some hit.id) with _ | fo <;>
        simp only [hFF] at h
      · exact tryFloor_some_id r s _ o h
      · cases Option.some.inj h
        have := List.find?_some hFF
        simp only [beq_iff_eq] at this
        exact absurd href (by simp [this])
  · intro o h href hid ob hob bb hbb
    have hobjs : (s.sceneObjects.map (fun o => { o with selected := false })).find?
        (fun x => x.id == "floor") = some { ob with selected := false } := by
      rw [find?_map_clear (fun x => x.id == "floor") (fun o => rfl), hob]
      rfl
    rcases hIF : intersectFurniture trig r s.furniture with _ | hit <;>
      simp only [selectObject, hIF] at h
    · exact tryFloor_walls_floor_miss r s _ o h hid _ hobjs bb (by simpa using hbb)
    · rcases hFF : (s.sceneObjects.map (fun o => { o with selected := false })).find?
          (fun o => o.furnitureRef == some hit.id) with _ | fo <;>
        simp only [hFF] at h
      · exact tryFloor_walls_floor_miss r s _ o h hid _ hobjs bb (by simpa using hbb)
      · cases Option.some.inj h
        have := List.find?_some hFF
        simp only [beq_iff_eq] at this
        exact absurd href (by simp [this])
  · intro hwf
    constructor
    · intro o h href
      rcases hIF : intersectFurniture trig r s.furniture with _ | hit
      · rfl
      · exfalso
        obtain ⟨fo, hFF⟩ := hfind hit hwf hIF
        simp only [selectObject, hIF, hFF] at h
        cases Option.some.inj h
        have := List.find?_some hFF
        simp only [beq_iff_eq] at this
        exact absurd href (by simp [this])
    · intro h
      rcases hIF : intersectFurniture trig r s.furniture with _ | hit
      swap
      · exfalso
        obtain ⟨fo, hFF⟩ := hfind hit hwf hIF
        simp only [selectObject, hIF, hFF] at h
        exact Option.noConfusion h
      simp only [selectObject, hIF] at h
      refine ⟨rfl, ?_, ?_⟩
      · intro ob hob bb hbb
        refine tryFloor_none_floor r s _ h ({ ob with selected := false }) ?_ bb (by simpa using hbb)
        rw [find?_map_clear (fun o => o.id == "floor") (fun o => rfl), hob]
        rfl
      · intro ob hob bb hbb
        refine tryFloor_none_walls r s _ h ({ ob with selected := false }) ?_ bb (by simpa using hbb)
        rw [find?_map_clear (fun o => o.id == "walls") (fun o => rfl), hob]
        rfl

/-- Modelled from the claim's words: the candidate hit distance the spec
attributes to a scene entity — a furniture entity's transformed-box hit, a
floor or walls entity's fixed-box hit. -/
def specCandidateDist (trig : ℚ → ℚ × ℚ) (r : Ray) (s : SceneState)
    (o : SceneObject) : Option JSNum :=
  match o.furnitureRef with
  | some fid =>
    match s.furniture.find? (fun f => f.id == fid) with
    | some f => intersectBox trig r f
    | none => none
  | none =>
    match o.boundingBox with
    | some bb => intersectAABB r bb.min bb.max
    | none => none

/-- C1 as stated: for every trig model agreeing with cosine/sine at angle 0
(the only rotation occurring), every scene state and pick ray, the selected
entity has minimal positive hit distance among ALL candidates (furniture,
floor and walls), and `none` is returned only when no candidate intersects. -/
def C1ClaimHolds : Prop :=
  ∀ (trig : ℚ → ℚ × ℚ), trig 0 = (1, 0) →
    ∀ (s : SceneState) (r : Ray),
      (∀ o, (selectObject trig r s).2 = some o →
        ∃ d, specCandidateDist trig r s o = some d ∧
          ∀ o' ∈ s.sceneObjects, ∀ d', specCandidateDist trig r s o' = some d' →
            jlt d' d = false) ∧
      ((selectObject trig r s).2 = none →
        ∀ o' ∈ s.sceneObjects, specCandidateDist trig r s o' = none)

/-- C1 counterexample: a camera at `(0, 1/2, 20)` firing along `-z` at the
scene holding one default chair.  The walls box is entered at distance 10,
the chair only at 79/4; the code still selects the chair, so nearest-hit
across all candidates is violated. -/
theorem selectObject_not_globally_nearest : ¬ C1ClaimHolds := by
  intro hclaim
  obtain ⟨hsome, _⟩ := hclaim (fun _ => (1, 0)) rfl
    (addFurniture initState .chair).1 ⟨⟨0, 1/2, 20⟩, ⟨0, 0, -1⟩⟩
  have hres : (selectObject (fun _ => (1, 0)) ⟨⟨0, 1/2, 20⟩, ⟨0, 0, -1⟩⟩
      (addFurniture initState .chair).1).2 =
      some { id := genId 0,
             name := typeName .chair ++ " #" ++ idSuffix (genId 0),
             sotype := "furniture", selected := true,
             furnitureRef := some (genId 0),
             boundingBox := some ⟨⟨-1/4, 0, -1/4⟩, ⟨1/4, 114/100, 1/4⟩⟩ } := by
    norm_num [selectObject, intersectFurniture, intersectBox, intersectAABB,
      rotateCorner, vmul, vadd, sortPair, jgt, jlt, jdiv, min_def, max_def,
      List.foldl, List.map, List.find?, setFirst, addFurniture, createByType,
      createChair, initState, createVAO, generateId, decide_eq_true_eq]
  obtain ⟨d, hd, hmin⟩ := hsome _ hres
  have hdist : specCandidateDist (fun _ => (1, 0)) ⟨⟨0, 1/2, 20⟩, ⟨0, 0, -1⟩⟩
      (addFurniture initState .chair).1
      { id := genId 0,
        name := typeName .chair ++ " #" ++ idSuffix (genId 0),
        sotype := "furniture", selected := true,
        furnitureRef := some (genId 0),
        boundingBox := some ⟨⟨-1/4, 0, -1/4⟩, ⟨1/4, 114/100, 1/4⟩⟩ } =
      some (.fin (79/4)) := by
    norm_num [specCandidateDist, intersectBox, intersectAABB, rotateCorner,
      vmul, vadd, sortPair, jgt, jlt, jdiv, min_def, max_def, List.foldl,
      List.map, List.find?, addFurniture, createByType, createChair,
      initState, createVAO, generateId, decide_eq_true_eq]
  have hdeq : d = .fin (79/4) := Option.some.inj (hd.symm.trans hdist)
  have hwmem : ({ id := "walls", name := "Walls", sotype := "walls",
                  selected := false, furnitureRef := none,
                  boundingBox := some ⟨⟨-10, 0, -10⟩, ⟨10, 5, 10⟩⟩ } : SceneObject) ∈
      (addFurniture initState .chair).1.sceneObjects := by
    simp [addFurniture, initState, createByType, createChair, createVAO,
      generateId]
  have hwdist : specCandidateDist (fun _ => (1, 0)) ⟨⟨0, 1/2, 20⟩, ⟨0, 0, -1⟩⟩
      (addFurniture initState .chair).1
      { id := "walls", name := "Walls", sotype := "walls", selected := false,
        furnitureRef := none,
        boundingBox := some ⟨⟨-10, 0, -10⟩, ⟨10, 5, 10⟩⟩ } =
      some (.fin 10) := by
    norm_num [specCandidateDist, intersectAABB, sortPair, jgt, jlt, jdiv,
      min_def, max_def, decide_eq_true_eq]
  have hcontra := hmin _ hwmem _ hwdist
  rw [hdeq] at hcontra
  norm_num [jlt] at hcontra

/-- Witness for the amended C1: in the counterexample scene the picked chair
is a member of the collection attaining the minimal furniture hit
distance. -/
theorem selectObject_priority_nearest_witness :
    (addFurniture initState .chair).2 ∈ (addFurniture initState .chair).1.furniture ∧
    ∃ d, intersectBox (fun _ => (1, 0)) ⟨⟨0, 1/2, 20⟩, ⟨0, 0, -1⟩⟩
        (addFurniture initState .chair).2 = some d ∧
      ∀ g ∈ (addFurniture initState .chair).1.furniture, ∀ d',
        intersectBox (fun _ => (1, 0)) ⟨⟨0, 1/2, 20⟩, ⟨0, 0, -1⟩⟩ g = some d' →
          jlt d' d = false :=
  (selectObject_priority_nearest (fun _ => (1, 0)) (addFurniture initState .chair).1
    ⟨⟨0, 1/2, 20⟩, ⟨0, 0, -1⟩⟩).1 (addFurniture initState .chair).2
    (by norm_num [intersectFurniture, List.foldl, intersectBox, intersectAABB,
      rotateCorner, vmul, vadd, sortPair, jgt, jlt, jdiv, min_def, max_def,
      List.map, addFurniture, createByType, createChair, initState,
      createVAO, generateId, decide_eq_true_eq])

end RoomDesigner
